import Mathlib

/-!
# LinearVector

A shallow embedding of `linearvector.h`: the class template
`LinearVector<length, T>` (a wrapper around `std::array<T, length>`) with its
constructors, the checked `operator[]`, the compound operators of the class and
the free binary operators.

Conventions of the embedding.

* Every operation returns `Except Failure _`.  The three ways a call can go
  wrong are kept apart: an `assert` that fires, the `std::out_of_range` thrown
  by `std::array::at`, and an unchecked `std::array::operator[]` outside the
  array.
* `assert` comes from `<assert.h>`; whether it checks anything depends on
  `NDEBUG`, which the header does not define.  Every operation that reaches an
  `assert` takes the flag `ndebug` as its first argument.
* A `T&` into a vector is the position it refers to, a `Fin length`; reading
  and writing through it are `StdArray.load` and `StdArray.store`.
* A `const LinearVector&` argument is passed as its value.  No operation writes
  through it, every iteration reads `vec[i]` before it writes `data_[i]`, and no
  iteration reads an element another one wrote, so the result is the same when
  the argument is the receiver itself.  A `const type&` scalar is different
  (see `ScalarRef`).
* A constructor starts from storage with unspecified contents, the argument
  `uninit`.  The free operators pass the same `uninit` to every object they
  construct.
* `T(k)` for an integer literal `k` is the cast of `k` into `T`.
* `size_t` values are natural numbers.
-/

namespace LinearVectorModel

/-- The ways an operation can fail. -/
inductive Failure where
  /-- An `assert` whose condition is false, in a build without `NDEBUG`. -/
  | assertion_failed
  /-- The exception `std::out_of_range`. -/
  | out_of_range
  /-- An unchecked `std::array::operator[]` with an index outside the array. -/
  | undefined_behaviour
  deriving DecidableEq, Repr

deriving instance DecidableEq for Except

/-- The macro `assert(cond)`: nothing when `NDEBUG` is defined, otherwise the
program stops when `cond` is false. -/
def cassert (ndebug : Bool) (cond : Bool) : Except Failure Unit :=
  if ndebug || cond then .ok () else .error .assertion_failed

/-- The type `std::array<T, length>`: exactly `length` values of `T`. -/
structure StdArray (T : Type) (length : Nat) where
  elems : List T
  size_eq : elems.length = length
  deriving DecidableEq, Repr

namespace StdArray

variable {T : Type} {length : Nat}

/-- Unchecked `operator[]` of `std::array`: the element reference, defined only
for `i < length`. -/
def subscript (_a : StdArray T length) (i : Nat) : Except Failure (Fin length) :=
  if h : i < length then .ok ⟨i, h⟩ else .error .undefined_behaviour

/-- Checked `at` of `std::array`: the element reference, or `std::out_of_range`
when `i >= length`. -/
def at_ (_a : StdArray T length) (i : Nat) : Except Failure (Fin length) :=
  if h : i < length then .ok ⟨i, h⟩ else .error .out_of_range

/-- Read through an element reference. -/
def load (a : StdArray T length) (r : Fin length) : T :=
  a.elems.get ⟨r.val, by rw [a.size_eq]; exact r.isLt⟩

/-- Write through an element reference. -/
def store (a : StdArray T length) (r : Fin length) (x : T) : StdArray T length :=
  ⟨a.elems.set r.val x, by rw [List.length_set]; exact a.size_eq⟩

end StdArray

/-- The class `LinearVector<length, T>`; its only member is `data_`. -/
structure LinearVector (length : Nat) (T : Type) where
  data_ : StdArray T length
  deriving DecidableEq, Repr

/-- The loop `for (size_t i = start; i < start + n; ++i) body`: `n` iterations,
the counter going up by one, stopping at the first failure.  With `start = 0`
and `n = length` this is the loop `for (size_t i = 0; i < length; ++i)`. -/
def forLoop {σ : Type} (body : Nat → σ → Except Failure σ) :
    Nat → Nat → σ → Except Failure σ
  | 0, _, s => .ok s
  | n + 1, i, s => body i s >>= forLoop body n (i + 1)

namespace LinearVector

variable {T : Type} {length : Nat}

/-- The non-const `T& operator[] (size_t i)`. -/
def operator_index (ndebug : Bool) (this : LinearVector length T) (i : Nat) :
    Except Failure (Fin length) := do
  cassert ndebug (decide (i < length) && decide (i ≥ 0))
  this.data_.at_ i

/-- The const `const T& operator[] (size_t i) const`. -/
def operator_index_const (ndebug : Bool) (this : LinearVector length T) (i : Nat) :
    Except Failure (Fin length) := do
  cassert ndebug (decide (i < length) && decide (i ≥ 0))
  this.data_.at_ i

/-- Indexed read, the expression `v[i]` used as a value on a const vector. -/
def read (ndebug : Bool) (this : LinearVector length T) (i : Nat) : Except Failure T := do
  let r ← this.operator_index_const ndebug i
  pure (this.data_.load r)

/-- Indexed write, the statement `v[i] = x`. -/
def write (ndebug : Bool) (this : LinearVector length T) (i : Nat) (x : T) :
    Except Failure (LinearVector length T) := do
  let r ← this.operator_index ndebug i
  pure ⟨this.data_.store r x⟩

/-- What the `const type& num` argument of a compound scalar operator is bound
to.  The operators read `num` again in every iteration, so the embedding keeps
the binding and not a value. -/
inductive ScalarRef (T : Type) (length : Nat) where
  /-- An object of type `T` that is no part of the receiver. -/
  | object (x : T)
  /-- An element of the receiver itself, as in `v += v[0]`. -/
  | element (r : Fin length)
  deriving DecidableEq, Repr

/-- The value of `num` while the receiver is in state `this`. -/
def ScalarRef.value (num : ScalarRef T length) (this : LinearVector length T) : T :=
  match num with
  | .object x => x
  | .element r => this.data_.load r

/-- The default constructor `LinearVector()`; `uninit` is what the member
`data_` holds before the body runs. -/
def ctor_default [IntCast T] (uninit : StdArray T length) :
    Except Failure (LinearVector length T) :=
  forLoop (fun i (this : LinearVector length T) => do
    let r ← this.data_.subscript i
    pure ⟨this.data_.store r ((0 : Int) : T)⟩) length 0 ⟨uninit⟩

/-- The range-for loop of the list constructor, `data_.at(i) = p; ++i` for every
`p` of `args`. -/
def ctor_list_loop : List T → Nat → LinearVector length T →
    Except Failure (LinearVector length T)
  | [], _, this => .ok this
  | p :: rest, i, this => do
    let r ← this.data_.at_ i
    ctor_list_loop rest (i + 1) ⟨this.data_.store r p⟩

/-- The list constructor `LinearVector(std::initializer_list<T> args)`. -/
def ctor_list (ndebug : Bool) (uninit : StdArray T length) (args : List T) :
    Except Failure (LinearVector length T) := do
  cassert ndebug (decide (args.length = length))
  if args.length ≠ length then
    throw Failure.out_of_range
  ctor_list_loop args 0 ⟨uninit⟩

/-- The copy constructor `LinearVector(const LinearVector<length,T>& vec)`. -/
def ctor_copy (ndebug : Bool) (uninit : StdArray T length) (vec : LinearVector length T) :
    Except Failure (LinearVector length T) :=
  forLoop (fun i (this : LinearVector length T) => do
    let s ← vec.operator_index_const ndebug i
    let r ← this.data_.subscript i
    pure ⟨this.data_.store r (vec.data_.load s)⟩) length 0 ⟨uninit⟩

/-- The member `void operator= (const LinearVector<length,T>& vec)`. -/
def operator_assign (ndebug : Bool) (this vec : LinearVector length T) :
    Except Failure (LinearVector length T) :=
  forLoop (fun i (this : LinearVector length T) => do
    let s ← vec.operator_index_const ndebug i
    let r ← this.data_.subscript i
    pure ⟨this.data_.store r (vec.data_.load s)⟩) length 0 this

/-- The member `operator+= (const LinearVector<length,T>& vec)`. -/
def operator_add_assign_vec [Add T] (ndebug : Bool) (this vec : LinearVector length T) :
    Except Failure (LinearVector length T) :=
  forLoop (fun i (this : LinearVector length T) => do
    let s ← vec.operator_index_const ndebug i
    let r ← this.data_.subscript i
    pure ⟨this.data_.store r (this.data_.load r + vec.data_.load s)⟩) length 0 this

/-- The member `operator-= (const LinearVector<length,T>& vec)`. -/
def operator_sub_assign_vec [Sub T] (ndebug : Bool) (this vec : LinearVector length T) :
    Except Failure (LinearVector length T) :=
  forLoop (fun i (this : LinearVector length T) => do
    let s ← vec.operator_index_const ndebug i
    let r ← this.data_.subscript i
    pure ⟨this.data_.store r (this.data_.load r - vec.data_.load s)⟩) length 0 this

/-- The loop the four compound scalar operators share,
`for (size_t i = 0; i < length; ++i) data_[i] op= num;`. -/
def scalar_loop (op : T → T → T) (this : LinearVector length T) (num : ScalarRef T length) :
    Except Failure (LinearVector length T) :=
  forLoop (fun i (this : LinearVector length T) => do
    let r ← this.data_.subscript i
    pure ⟨this.data_.store r (op (this.data_.load r) (num.value this))⟩) length 0 this

/-- The member `operator+= (const type& num)`, with `type` the same as `T`. -/
def operator_add_assign [Add T] (this : LinearVector length T) (num : ScalarRef T length) :
    Except Failure (LinearVector length T) :=
  scalar_loop (fun x y => x + y) this num

/-- The member `operator-= (const type& num)`, with `type` the same as `T`. -/
def operator_sub_assign [Sub T] (this : LinearVector length T) (num : ScalarRef T length) :
    Except Failure (LinearVector length T) :=
  scalar_loop (fun x y => x - y) this num

/-- The member `operator*= (const type& num)`, with `type` the same as `T`. -/
def operator_mul_assign [Mul T] (this : LinearVector length T) (num : ScalarRef T length) :
    Except Failure (LinearVector length T) :=
  scalar_loop (fun x y => x * y) this num

/-- The member `operator/= (const type& num)`, with `type` the same as `T`. -/
def operator_div_assign [Div T] (this : LinearVector length T) (num : ScalarRef T length) :
    Except Failure (LinearVector length T) :=
  scalar_loop (fun x y => x / y) this num

/-!
### The free binary operators

Each builds a local `temp`, applies a compound operator to it and returns the
result by value: the returned object is copy-constructed from the reference the
compound operator gives back.  The scalar `num` of a free operator is never an
element of `temp`, so it is passed on as `ScalarRef.object`.
-/

/-- The free `operator+ (left, right)` on two vectors. -/
def operator_add [Add T] (ndebug : Bool) (uninit : StdArray T length)
    (left right : LinearVector length T) : Except Failure (LinearVector length T) := do
  let temp ← ctor_copy ndebug uninit left
  let temp ← temp.operator_add_assign_vec ndebug right
  ctor_copy ndebug uninit temp

/-- The free `operator- (left, right)` on two vectors. -/
def operator_sub [Sub T] (ndebug : Bool) (uninit : StdArray T length)
    (left right : LinearVector length T) : Except Failure (LinearVector length T) := do
  let temp ← ctor_copy ndebug uninit left
  let temp ← temp.operator_sub_assign_vec ndebug right
  ctor_copy ndebug uninit temp

/-- The free `operator+ (vec, num)`. -/
def operator_add_num [Add T] (ndebug : Bool) (uninit : StdArray T length)
    (vec : LinearVector length T) (num : T) : Except Failure (LinearVector length T) := do
  let temp ← ctor_copy ndebug uninit vec
  let temp ← temp.operator_add_assign (.object num)
  ctor_copy ndebug uninit temp

/-- The free `operator- (vec, num)`. -/
def operator_sub_num [Sub T] (ndebug : Bool) (uninit : StdArray T length)
    (vec : LinearVector length T) (num : T) : Except Failure (LinearVector length T) := do
  let temp ← ctor_copy ndebug uninit vec
  let temp ← temp.operator_sub_assign (.object num)
  ctor_copy ndebug uninit temp

/-- The free `operator* (vec, num)`. -/
def operator_mul_num [Mul T] (ndebug : Bool) (uninit : StdArray T length)
    (vec : LinearVector length T) (num : T) : Except Failure (LinearVector length T) := do
  let temp ← ctor_copy ndebug uninit vec
  let temp ← temp.operator_mul_assign (.object num)
  ctor_copy ndebug uninit temp

/-- The free `operator/ (vec, num)`. -/
def operator_div_num [Div T] (ndebug : Bool) (uninit : StdArray T length)
    (vec : LinearVector length T) (num : T) : Except Failure (LinearVector length T) := do
  let temp ← ctor_copy ndebug uninit vec
  let temp ← temp.operator_div_assign (.object num)
  ctor_copy ndebug uninit temp

/-- The free `operator+ (num, vec)`: `return vec + num;`. -/
def num_operator_add [Add T] (ndebug : Bool) (uninit : StdArray T length)
    (num : T) (vec : LinearVector length T) : Except Failure (LinearVector length T) :=
  operator_add_num ndebug uninit vec num

/-- The free `operator- (num, vec)`: `return vec * T(-1) + num;`. -/
def num_operator_sub [Add T] [Mul T] [IntCast T] (ndebug : Bool) (uninit : StdArray T length)
    (num : T) (vec : LinearVector length T) : Except Failure (LinearVector length T) := do
  let scaled ← operator_mul_num ndebug uninit vec ((-1 : Int) : T)
  operator_add_num ndebug uninit scaled num

/-- The free `operator* (num, vec)`: `return vec * num;`. -/
def num_operator_mul [Mul T] (ndebug : Bool) (uninit : StdArray T length)
    (num : T) (vec : LinearVector length T) : Except Failure (LinearVector length T) :=
  operator_mul_num ndebug uninit vec num

/-- The free `operator/ (num, vec)`: every element of a copy is replaced by
`T(1) / temp[i]` through the checked `operator[]`, then `temp *= num`. -/
def num_operator_div [Mul T] [Div T] [IntCast T] (ndebug : Bool) (uninit : StdArray T length)
    (num : T) (vec : LinearVector length T) : Except Failure (LinearVector length T) := do
  let temp ← ctor_copy ndebug uninit vec
  let temp ← forLoop (fun i (temp : LinearVector length T) => do
    let s ← temp.operator_index ndebug i
    let r ← temp.operator_index ndebug i
    pure ⟨temp.data_.store r (((1 : Int) : T) / temp.data_.load s)⟩) length 0 temp
  let temp ← temp.operator_mul_assign (.object num)
  ctor_copy ndebug uninit temp

end LinearVector

variable {T : Type} {length : Nat}

/-- The vector whose `data_` holds exactly the values `xs`, written
`{x0, x1, ...}` in the tests. -/
def LinearVector.lit (xs : List T) (h : xs.length = length) :
    LinearVector length T :=
  ⟨⟨xs, h⟩⟩

/-- The failure an out-of-range request ends in: the `assert` stops a build
without `NDEBUG`, the exception is thrown in a build with it. -/
def rangeFailure (ndebug : Bool) : Failure :=
  if ndebug then .out_of_range else .assertion_failed

/-- The vector a loop leaves that rewrites every element `r` to
`g r (old element r)`. -/
def LinearVector.pointwise (g : Fin length → T → T) (v : LinearVector length T) :
    LinearVector length T :=
  ⟨⟨List.ofFn (fun r : Fin length => g r (v.data_.load r)), by simp⟩⟩

/-- The vector `num - v` in the words of the specification: element `i` is
`num - v[i]`. -/
def LinearVector.scalar_minus_elementwise [Sub T] (num : T) (v : LinearVector length T) :
    LinearVector length T :=
  v.pointwise (fun _ x => num - x)

/-- The statement `v[i] = x` as a step on the object `v`: its outcome and the
state of `v` when the statement ends, normally or not.  `operator[]` writes
nothing, the only write is the store through the reference it returns. -/
def LinearVector.write_step (ndebug : Bool) (this : LinearVector length T) (i : Nat) (x : T) :
    Except Failure Unit × LinearVector length T :=
  match this.operator_index ndebug i with
  | .error e => (.error e, this)
  | .ok r => (.ok (), ⟨this.data_.store r x⟩)

/-- The implicit conversion of a signed integer to the 64-bit `size_t` that
`operator[]` takes: the value modulo `2^64`. -/
def to_size_t (k : Int) : Nat :=
  (k % 2 ^ 64).toNat

/-- An integer element type such as `int`: `/` is the division of the language,
which truncates towards zero.  Overflow is not modelled. -/
structure CInt where
  val : Int
  deriving DecidableEq, Repr

instance : Add CInt := ⟨fun a b => ⟨a.val + b.val⟩⟩

instance : Sub CInt := ⟨fun a b => ⟨a.val - b.val⟩⟩

instance : Mul CInt := ⟨fun a b => ⟨a.val * b.val⟩⟩

instance : Div CInt := ⟨fun a b => ⟨Int.tdiv a.val b.val⟩⟩

instance : IntCast CInt := ⟨fun k => ⟨k⟩⟩

/-!
## Basic facts about the storage and the loops
-/

theorem StdArray.load_store_same (a : StdArray T length) (r : Fin length) (x : T) :
    (a.store r x).load r = x := by
  simp [StdArray.load, StdArray.store]

theorem StdArray.load_store_ne (a : StdArray T length) {r s : Fin length} (h : r ≠ s) (x : T) :
    (a.store r x).load s = a.load s := by
  have hv : r.val ≠ s.val := fun e => h (Fin.ext e)
  simp [StdArray.load, StdArray.store, List.getElem_set_ne hv]

theorem StdArray.ext_load {a b : StdArray T length} (h : ∀ r : Fin length, a.load r = b.load r) :
    a = b := by
  obtain ⟨xs, hx⟩ := a
  obtain ⟨ys, hy⟩ := b
  have : xs = ys := by
    apply List.ext_getElem (by rw [hx, hy])
    intro n h1 h2
    have := h ⟨n, by rw [← hx]; exact h1⟩
    simpa [StdArray.load] using this
  subst this
  rfl

theorem LinearVector.ext_of_load {a b : LinearVector length T}
    (h : ∀ r : Fin length, a.data_.load r = b.data_.load r) : a = b := by
  obtain ⟨a⟩ := a
  obtain ⟨b⟩ := b
  have e : a = b := StdArray.ext_load h
  rw [e]

theorem StdArray.subscript_lt (a : StdArray T length) {i : Nat} (h : i < length) :
    a.subscript i = .ok ⟨i, h⟩ := by
  simp [StdArray.subscript, h]

theorem StdArray.at_lt (a : StdArray T length) {i : Nat} (h : i < length) :
    a.at_ i = .ok ⟨i, h⟩ := by
  simp [StdArray.at_, h]

theorem LinearVector.operator_index_eq (ndebug : Bool) (v : LinearVector length T) (i : Nat) :
    v.operator_index ndebug i =
      if h : i < length then .ok ⟨i, h⟩ else .error (rangeFailure ndebug) := by
  by_cases h : i < length
  · simp [LinearVector.operator_index, cassert, StdArray.at_, h, bind, Except.bind]
  · cases ndebug <;>
      simp [LinearVector.operator_index, cassert, StdArray.at_, h, bind, Except.bind,
        rangeFailure]

theorem LinearVector.operator_index_const_eq (ndebug : Bool) (v : LinearVector length T)
    (i : Nat) :
    v.operator_index_const ndebug i =
      if h : i < length then .ok ⟨i, h⟩ else .error (rangeFailure ndebug) := by
  by_cases h : i < length
  · simp [LinearVector.operator_index_const, cassert, StdArray.at_, h, bind, Except.bind]
  · cases ndebug <;>
      simp [LinearVector.operator_index_const, cassert, StdArray.at_, h, bind, Except.bind,
        rangeFailure]

theorem LinearVector.load_pointwise (g : Fin length → T → T) (v : LinearVector length T)
    (r : Fin length) : (v.pointwise g).data_.load r = g r (v.data_.load r) := by
  simp [LinearVector.pointwise, StdArray.load]

theorem forLoop_pointwise_aux (g : Fin length → T → T)
    (body : Nat → LinearVector length T → Except Failure (LinearVector length T))
    (hbody : ∀ (i : Nat) (h : i < length) (s : LinearVector length T),
      body i s = .ok ⟨s.data_.store ⟨i, h⟩ (g ⟨i, h⟩ (s.data_.load ⟨i, h⟩))⟩) :
    ∀ (n i : Nat) (s : LinearVector length T), i + n = length →
      ∃ s', forLoop body n i s = .ok s' ∧
        ∀ r : Fin length,
          s'.data_.load r = if i ≤ r.val then g r (s.data_.load r) else s.data_.load r := by
  intro n
  induction n with
  | zero =>
    intro i s hi
    refine ⟨s, rfl, fun r => ?_⟩
    have : ¬ i ≤ r.val := by have := r.isLt; omega
    simp [this]
  | succ n ih =>
    intro i s hi
    have hlt : i < length := by omega
    obtain ⟨s', hs', hload⟩ := ih (i + 1) _ (by omega)
    refine ⟨s', ?_, fun r => ?_⟩
    · simp only [forLoop, hbody i hlt s, bind, Except.bind]
      exact hs'
    · rw [hload r]
      by_cases hr : r.val = i
      · have hr2 : r = ⟨i, hlt⟩ := Fin.ext hr
        subst hr2
        simp [StdArray.load_store_same]
      · have hne : (⟨i, hlt⟩ : Fin length) ≠ r := fun e => hr (by rw [← e])
        rw [StdArray.load_store_ne _ hne]
        by_cases hle : i ≤ r.val
        · have : i + 1 ≤ r.val := by omega
          simp [hle, this]
        · have : ¬ i + 1 ≤ r.val := by omega
          simp [hle, this]

/-- A loop over `0 .. length - 1` whose body rewrites element `i` alone, from its
own old value, succeeds and leaves `LinearVector.pointwise`. -/
theorem forLoop_pointwise (g : Fin length → T → T)
    (body : Nat → LinearVector length T → Except Failure (LinearVector length T))
    (hbody : ∀ (i : Nat) (h : i < length) (s : LinearVector length T),
      body i s = .ok ⟨s.data_.store ⟨i, h⟩ (g ⟨i, h⟩ (s.data_.load ⟨i, h⟩))⟩)
    (s : LinearVector length T) :
    forLoop body length 0 s = .ok (s.pointwise g) := by
  obtain ⟨s', hs', hload⟩ := forLoop_pointwise_aux g body hbody length 0 s (by omega)
  rw [hs']
  congr 1
  apply LinearVector.ext_of_load
  intro r
  rw [hload r, LinearVector.load_pointwise]
  simp

/-!
## What each operation computes
-/

theorem LinearVector.read_eq (ndebug : Bool) (v : LinearVector length T) (i : Nat) :
    v.read ndebug i =
      if h : i < length then .ok (v.data_.load ⟨i, h⟩) else .error (rangeFailure ndebug) := by
  rw [LinearVector.read, LinearVector.operator_index_const_eq]
  by_cases h : i < length <;> simp [h, bind, Except.bind, pure, Except.pure]

theorem LinearVector.write_eq (ndebug : Bool) (v : LinearVector length T) (i : Nat) (x : T) :
    v.write ndebug i x =
      if h : i < length then .ok ⟨v.data_.store ⟨i, h⟩ x⟩ else .error (rangeFailure ndebug) := by
  rw [LinearVector.write, LinearVector.operator_index_eq]
  by_cases h : i < length <;> simp [h, bind, Except.bind, pure, Except.pure]

theorem LinearVector.read_lt (ndebug : Bool) (v : LinearVector length T) {i : Nat}
    (h : i < length) : v.read ndebug i = .ok (v.data_.load ⟨i, h⟩) := by
  rw [LinearVector.read_eq, dif_pos h]

theorem LinearVector.load_lit (xs : List T) (h : xs.length = length) (r : Fin length) :
    (LinearVector.lit xs h).data_.load r = xs.get ⟨r.val, by rw [h]; exact r.isLt⟩ := rfl

theorem LinearVector.ctor_default_eq [IntCast T] (uninit : StdArray T length) :
    LinearVector.ctor_default uninit
      = .ok (LinearVector.pointwise (fun _ _ => ((0 : Int) : T)) ⟨uninit⟩) := by
  unfold LinearVector.ctor_default
  apply forLoop_pointwise
  intro i h s
  simp [StdArray.subscript_lt _ h, bind, Except.bind, pure, Except.pure]

theorem LinearVector.ctor_copy_eq (ndebug : Bool) (uninit : StdArray T length)
    (vec : LinearVector length T) : LinearVector.ctor_copy ndebug uninit vec = .ok vec := by
  unfold LinearVector.ctor_copy
  rw [forLoop_pointwise (fun r _ => vec.data_.load r)]
  · congr 1
    apply LinearVector.ext_of_load
    intro r
    rw [LinearVector.load_pointwise]
  · intro i h s
    simp [StdArray.subscript_lt _ h, LinearVector.operator_index_const_eq, h, bind,
      Except.bind, pure, Except.pure]

theorem LinearVector.operator_assign_eq (ndebug : Bool) (this vec : LinearVector length T) :
    this.operator_assign ndebug vec = .ok vec := by
  unfold LinearVector.operator_assign
  rw [forLoop_pointwise (fun r _ => vec.data_.load r)]
  · congr 1
    apply LinearVector.ext_of_load
    intro r
    rw [LinearVector.load_pointwise]
  · intro i h s
    simp [StdArray.subscript_lt _ h, LinearVector.operator_index_const_eq, h, bind,
      Except.bind, pure, Except.pure]

theorem LinearVector.operator_add_assign_vec_eq [Add T] (ndebug : Bool)
    (this vec : LinearVector length T) :
    this.operator_add_assign_vec ndebug vec
      = .ok (this.pointwise (fun r x => x + vec.data_.load r)) := by
  unfold LinearVector.operator_add_assign_vec
  apply forLoop_pointwise
  intro i h s
  simp [StdArray.subscript_lt _ h, LinearVector.operator_index_const_eq, h, bind,
    Except.bind, pure, Except.pure]

theorem LinearVector.operator_sub_assign_vec_eq [Sub T] (ndebug : Bool)
    (this vec : LinearVector length T) :
    this.operator_sub_assign_vec ndebug vec
      = .ok (this.pointwise (fun r x => x - vec.data_.load r)) := by
  unfold LinearVector.operator_sub_assign_vec
  apply forLoop_pointwise
  intro i h s
  simp [StdArray.subscript_lt _ h, LinearVector.operator_index_const_eq, h, bind,
    Except.bind, pure, Except.pure]

/-- With `num` bound to an object outside the receiver, the shared loop applies
`op _ x` to every element. -/
theorem LinearVector.scalar_loop_object (op : T → T → T) (this : LinearVector length T) (x : T) :
    LinearVector.scalar_loop op this (.object x) = .ok (this.pointwise (fun _ y => op y x)) := by
  unfold LinearVector.scalar_loop
  apply forLoop_pointwise
  intro i h s
  simp [StdArray.subscript_lt _ h, ScalarRef.value, bind, Except.bind, pure, Except.pure]

theorem LinearVector.ctor_list_loop_spec (args : List T) :
    ∀ (i : Nat) (s : LinearVector length T), i + args.length = length →
      ∃ s', LinearVector.ctor_list_loop args i s = .ok s' ∧
        ∀ r : Fin length, s'.data_.load r =
          if i ≤ r.val then args.getD (r.val - i) (s.data_.load r) else s.data_.load r := by
  induction args with
  | nil =>
    intro i s hi
    refine ⟨s, rfl, fun r => ?_⟩
    simp
  | cons p rest ih =>
    intro i s hi
    have hlt : i < length := by simp at hi; omega
    obtain ⟨s', hs', hload⟩ := ih (i + 1) ⟨s.data_.store ⟨i, hlt⟩ p⟩ (by simp at hi ⊢; omega)
    refine ⟨s', ?_, fun r => ?_⟩
    · simp only [LinearVector.ctor_list_loop, StdArray.at_lt _ hlt, bind, Except.bind]
      exact hs'
    · rw [hload r]
      by_cases hr : r.val = i
      · have hr2 : r = ⟨i, hlt⟩ := Fin.ext hr
        subst hr2
        simp [StdArray.load_store_same]
      · have hne : (⟨i, hlt⟩ : Fin length) ≠ r := fun e => hr (by rw [← e])
        rw [StdArray.load_store_ne _ hne]
        by_cases hle : i ≤ r.val
        · have h1 : i + 1 ≤ r.val := by omega
          have h2 : r.val - i = (r.val - (i + 1)) + 1 := by omega
          simp only [hle, h1, if_true]
          rw [h2]
          simp
        · have h1 : ¬ i + 1 ≤ r.val := by omega
          simp [hle, h1]

theorem LinearVector.ctor_list_eq (ndebug : Bool) (uninit : StdArray T length) (args : List T) :
    LinearVector.ctor_list ndebug uninit args =
      if h : args.length = length then .ok (LinearVector.lit args h)
      else .error (rangeFailure ndebug) := by
  by_cases h : args.length = length
  · obtain ⟨s', hs', hload⟩ :=
      LinearVector.ctor_list_loop_spec args 0 (⟨uninit⟩ : LinearVector length T) (by omega)
    have e : s' = LinearVector.lit args h := by
      apply LinearVector.ext_of_load
      intro r
      rw [hload r, LinearVector.load_lit]
      have hr : r.val < args.length := by rw [h]; exact r.isLt
      simp [List.getElem?_eq_getElem hr]
    simp [LinearVector.ctor_list, cassert, h, bind, Except.bind, pure, Except.pure, hs', e]
  · cases ndebug <;>
      simp [LinearVector.ctor_list, cassert, h, bind, Except.bind, rangeFailure, throw,
        throwThe, MonadExceptOf.throw]

theorem LinearVector.read_pointwise (ndebug : Bool) (g : Fin length → T → T)
    (v : LinearVector length T) {i : Nat} (h : i < length) :
    (v.pointwise g).read ndebug i = .ok (g ⟨i, h⟩ (v.data_.load ⟨i, h⟩)) := by
  rw [LinearVector.read_lt ndebug _ h, LinearVector.load_pointwise]

theorem LinearVector.operator_add_eq [Add T] (ndebug : Bool) (uninit : StdArray T length)
    (left right : LinearVector length T) :
    LinearVector.operator_add ndebug uninit left right
      = .ok (left.pointwise (fun r x => x + right.data_.load r)) := by
  simp [LinearVector.operator_add, LinearVector.ctor_copy_eq,
    LinearVector.operator_add_assign_vec_eq, bind, Except.bind]

theorem LinearVector.operator_sub_eq [Sub T] (ndebug : Bool) (uninit : StdArray T length)
    (left right : LinearVector length T) :
    LinearVector.operator_sub ndebug uninit left right
      = .ok (left.pointwise (fun r x => x - right.data_.load r)) := by
  simp [LinearVector.operator_sub, LinearVector.ctor_copy_eq,
    LinearVector.operator_sub_assign_vec_eq, bind, Except.bind]

theorem LinearVector.operator_add_num_eq [Add T] (ndebug : Bool) (uninit : StdArray T length)
    (vec : LinearVector length T) (num : T) :
    LinearVector.operator_add_num ndebug uninit vec num
      = .ok (vec.pointwise (fun _ y => y + num)) := by
  simp [LinearVector.operator_add_num, LinearVector.ctor_copy_eq,
    LinearVector.operator_add_assign, LinearVector.scalar_loop_object, bind, Except.bind]

theorem LinearVector.operator_sub_num_eq [Sub T] (ndebug : Bool) (uninit : StdArray T length)
    (vec : LinearVector length T) (num : T) :
    LinearVector.operator_sub_num ndebug uninit vec num
      = .ok (vec.pointwise (fun _ y => y - num)) := by
  simp [LinearVector.operator_sub_num, LinearVector.ctor_copy_eq,
    LinearVector.operator_sub_assign, LinearVector.scalar_loop_object, bind, Except.bind]

theorem LinearVector.operator_mul_num_eq [Mul T] (ndebug : Bool) (uninit : StdArray T length)
    (vec : LinearVector length T) (num : T) :
    LinearVector.operator_mul_num ndebug uninit vec num
      = .ok (vec.pointwise (fun _ y => y * num)) := by
  simp [LinearVector.operator_mul_num, LinearVector.ctor_copy_eq,
    LinearVector.operator_mul_assign, LinearVector.scalar_loop_object, bind, Except.bind]

theorem LinearVector.operator_div_num_eq [Div T] (ndebug : Bool) (uninit : StdArray T length)
    (vec : LinearVector length T) (num : T) :
    LinearVector.operator_div_num ndebug uninit vec num
      = .ok (vec.pointwise (fun _ y => y / num)) := by
  simp [LinearVector.operator_div_num, LinearVector.ctor_copy_eq,
    LinearVector.operator_div_assign, LinearVector.scalar_loop_object, bind, Except.bind]

theorem LinearVector.num_operator_sub_eq [Add T] [Mul T] [IntCast T] (ndebug : Bool)
    (uninit : StdArray T length) (num : T) (vec : LinearVector length T) :
    LinearVector.num_operator_sub ndebug uninit num vec
      = .ok ((vec.pointwise (fun _ y => y * ((-1 : Int) : T))).pointwise (fun _ y => y + num)) := by
  simp [LinearVector.num_operator_sub, LinearVector.operator_mul_num_eq,
    LinearVector.operator_add_num_eq, bind, Except.bind]

theorem LinearVector.num_operator_div_eq [Mul T] [Div T] [IntCast T] (ndebug : Bool)
    (uninit : StdArray T length) (num : T) (vec : LinearVector length T) :
    LinearVector.num_operator_div ndebug uninit num vec
      = .ok ((vec.pointwise (fun _ y => ((1 : Int) : T) / y)).pointwise (fun _ y => y * num)) := by
  have hloop : forLoop (fun i (temp : LinearVector length T) => do
      let s ← temp.operator_index ndebug i
      let r ← temp.operator_index ndebug i
      pure ⟨temp.data_.store r (((1 : Int) : T) / temp.data_.load s)⟩) length 0 vec
        = .ok (vec.pointwise (fun _ y => ((1 : Int) : T) / y)) := by
    apply forLoop_pointwise
    intro i h s
    simp [LinearVector.operator_index_eq, h, bind, Except.bind, pure, Except.pure]
  simp only [bind, Except.bind] at hloop
  simp only [LinearVector.num_operator_div, LinearVector.ctor_copy_eq, bind, Except.bind, hloop,
    LinearVector.operator_mul_assign, LinearVector.scalar_loop_object]

/-!
## Element access
-/

/-- C1 at the input of the tests `Exceptions.get1` and `Exceptions.set1`, in a
build without `NDEBUG`: on the vector `{5, 5, 5}` of length 3 the read and the
write at index 3 are both stopped by the `assert` in `operator[]`, and neither
ends in the `std::out_of_range` that the comments of the header announce and
the tests catch. -/
theorem operator_index_assert_first :
    (LinearVector.lit [5, 5, 5] rfl : LinearVector 3 Int).read false 3
        = .error .assertion_failed ∧
      (LinearVector.lit [5, 5, 5] rfl : LinearVector 3 Int).read false 3
        ≠ .error .out_of_range ∧
      (LinearVector.lit [5, 5, 5] rfl : LinearVector 3 Int).write false 3 10
        = .error .assertion_failed ∧
      (LinearVector.lit [5, 5, 5] rfl : LinearVector 3 Int).write false 3 10
        ≠ .error .out_of_range := by
  decide

/-- Both builds at once: for every vector `v` of length `length` and every index
`i`, both `operator[]` overloads give the reference to element `i` when
`i < length`, and otherwise both fail in the same way: with `out_of_range` in a
build with `NDEBUG`, with the failed `assert` in a build without it.  The read
`v[i]` then yields element `i` and the write `v[i] = x` stores `x` there; for
`i >= length` they fail like `operator[]`. -/
theorem operator_index_checked (ndebug : Bool) (v : LinearVector length T) (i : Nat) (x : T) :
    (v.operator_index_const ndebug i =
        if h : i < length then .ok ⟨i, h⟩
        else .error (if ndebug then .out_of_range else .assertion_failed)) ∧
      (v.operator_index ndebug i =
        if h : i < length then .ok ⟨i, h⟩
        else .error (if ndebug then .out_of_range else .assertion_failed)) ∧
      (v.read ndebug i =
        if h : i < length then .ok (v.data_.load ⟨i, h⟩)
        else .error (if ndebug then .out_of_range else .assertion_failed)) ∧
      (v.write ndebug i x =
        if h : i < length then .ok ⟨v.data_.store ⟨i, h⟩ x⟩
        else .error (if ndebug then .out_of_range else .assertion_failed)) :=
  ⟨LinearVector.operator_index_const_eq ndebug v i, LinearVector.operator_index_eq ndebug v i,
    LinearVector.read_eq ndebug v i, LinearVector.write_eq ndebug v i x⟩

/-!
## List construction
-/

/-- C2 at the inputs of the tests `Exceptions.initListShorter` and
`Exceptions.initListLonger`, in a build without `NDEBUG`: building a vector of
length 3 from the two values `{1, 2}`, or from the four values `{1, 2, 3, 4}`,
is stopped by the `assert` of the constructor and does not end in the
`std::out_of_range` that the comment of the constructor announces and the tests
catch. -/
theorem ctor_list_assert_first :
    (LinearVector.ctor_list false ⟨[0, 0, 0], rfl⟩ [1, 2]
        : Except Failure (LinearVector 3 Int)) = .error .assertion_failed ∧
      (LinearVector.ctor_list false ⟨[0, 0, 0], rfl⟩ [1, 2]
        : Except Failure (LinearVector 3 Int)) ≠ .error .out_of_range ∧
      (LinearVector.ctor_list false ⟨[0, 0, 0], rfl⟩ [1, 2, 3, 4]
        : Except Failure (LinearVector 3 Int)) = .error .assertion_failed ∧
      (LinearVector.ctor_list false ⟨[0, 0, 0], rfl⟩ [1, 2, 3, 4]
        : Except Failure (LinearVector 3 Int)) ≠ .error .out_of_range := by
  decide

/-- Both builds at once: list construction succeeds exactly when the list has
`length` values, whatever the storage held before, and the vector it builds
holds the list; for a shorter or a longer list it fails and produces no vector,
with `out_of_range` in a build with `NDEBUG` and with the failed `assert` in a
build without it. -/
theorem ctor_list_size_check (ndebug : Bool) (uninit : StdArray T length) (args : List T) :
    LinearVector.ctor_list ndebug uninit args =
      if h : args.length = length then .ok (LinearVector.lit args h)
      else .error (if ndebug then .out_of_range else .assertion_failed) :=
  LinearVector.ctor_list_eq ndebug uninit args

/-- C3: for every list `xs` of exactly `length` values, list construction
succeeds, and reading index `i` of the vector it builds returns `xs[i]`, for
every `i < length`. -/
theorem ctor_list_read (ndebug : Bool) (uninit : StdArray T length) (xs : List T)
    (hlen : xs.length = length) (i : Nat) (hi : i < length) :
    ∃ v : LinearVector length T,
      LinearVector.ctor_list ndebug uninit xs = .ok v ∧
        v.read ndebug i = .ok (xs.get ⟨i, by rw [hlen]; exact hi⟩) := by
  refine ⟨LinearVector.lit xs hlen, ?_, ?_⟩
  · rw [LinearVector.ctor_list_eq, dif_pos hlen]
  · rw [LinearVector.read_lt ndebug _ hi, LinearVector.load_lit]

/-- C3 on the list `{7, 8, 9}` and a vector of length 3: construction succeeds and
the read of index 1 returns 8. -/
theorem ctor_list_read_witness :
    [7, 8, 9].length = 3 ∧ 1 < 3 ∧
      ∃ v : LinearVector 3 Int,
        LinearVector.ctor_list true ⟨[0, 0, 0], rfl⟩ [7, 8, 9] = .ok v ∧
          v.read true 1 = .ok 8 :=
  ⟨rfl, by decide, ctor_list_read true ⟨[0, 0, 0], rfl⟩ [7, 8, 9] rfl 1 (by decide)⟩

/-!
## Compound operators
-/

/-- The four compound scalar operators with `num` bound to an object `s` outside
the receiver: each succeeds and leaves `(old v[i]) op s` in every element. -/
theorem scalar_compound_object [Add T] [Sub T] [Mul T] [Div T] (ndebug : Bool)
    (v : LinearVector length T) (s : T) (i : Nat) (hi : i < length) :
    (∃ w, v.operator_add_assign (.object s) = .ok w ∧
        w.read ndebug i = .ok (v.data_.load ⟨i, hi⟩ + s)) ∧
      (∃ w, v.operator_sub_assign (.object s) = .ok w ∧
        w.read ndebug i = .ok (v.data_.load ⟨i, hi⟩ - s)) ∧
      (∃ w, v.operator_mul_assign (.object s) = .ok w ∧
        w.read ndebug i = .ok (v.data_.load ⟨i, hi⟩ * s)) ∧
      (∃ w, v.operator_div_assign (.object s) = .ok w ∧
        w.read ndebug i = .ok (v.data_.load ⟨i, hi⟩ / s)) := by
  refine ⟨⟨_, LinearVector.scalar_loop_object _ v s, ?_⟩,
    ⟨_, LinearVector.scalar_loop_object _ v s, ?_⟩,
    ⟨_, LinearVector.scalar_loop_object _ v s, ?_⟩,
    ⟨_, LinearVector.scalar_loop_object _ v s, ?_⟩⟩ <;>
  rw [LinearVector.read_pointwise ndebug _ _ hi]

/-- The chain of the specification on rationals: `{1, 2, 3} += 2` is
`{3, 4, 5}`, then `-= 2` gives `{1, 2, 3}`, `*= 2` gives `{2, 4, 6}` and `/= 2`
gives `{1, 2, 3}`. -/
theorem scalar_compound_chain :
    (LinearVector.lit [1, 2, 3] rfl : LinearVector 3 ℚ).operator_add_assign (.object 2)
        = .ok (LinearVector.lit [3, 4, 5] rfl) ∧
      (LinearVector.lit [3, 4, 5] rfl : LinearVector 3 ℚ).operator_sub_assign (.object 2)
        = .ok (LinearVector.lit [1, 2, 3] rfl) ∧
      (LinearVector.lit [1, 2, 3] rfl : LinearVector 3 ℚ).operator_mul_assign (.object 2)
        = .ok (LinearVector.lit [2, 4, 6] rfl) ∧
      (LinearVector.lit [2, 4, 6] rfl : LinearVector 3 ℚ).operator_div_assign (.object 2)
        = .ok (LinearVector.lit [1, 2, 3] rfl) := by
  refine ⟨?_, ?_, ?_, ?_⟩ <;>
  · simp only [LinearVector.operator_add_assign, LinearVector.operator_sub_assign,
      LinearVector.operator_mul_assign, LinearVector.operator_div_assign,
      LinearVector.scalar_loop_object]
    congr 1
    apply LinearVector.ext_of_load
    intro r
    rw [LinearVector.load_pointwise]
    fin_cases r <;> simp [LinearVector.lit, StdArray.load] <;> norm_num

/-- C4 at the call `v += v[0]` on `v = {1, 2, 3}`: `num` is bound to element 0,
which the first iteration rewrites to 2, so the elements after it receive 2 and
the vector ends as `{2, 4, 5}`.  With `s` the value 1 that `v[0]` holds at the
call, `(old v[i]) + s` is `{1 + 1, 2 + 1, 3 + 1}`, which is another vector, and
which the free `v + v[0]` does return. -/
theorem operator_add_assign_own_element :
    (LinearVector.lit [1, 2, 3] rfl : LinearVector 3 Int).read true 0 = .ok 1 ∧
      ((LinearVector.lit [1, 2, 3] rfl : LinearVector 3 Int).operator_index true 0 >>=
        fun r => (LinearVector.lit [1, 2, 3] rfl : LinearVector 3 Int).operator_add_assign
          (.element r)) = .ok (LinearVector.lit [2, 4, 5] rfl) ∧
      (LinearVector.lit [2, 4, 5] rfl : LinearVector 3 Int)
        ≠ LinearVector.lit [1 + 1, 2 + 1, 3 + 1] rfl ∧
      LinearVector.operator_add_num true ⟨[0, 0, 0], rfl⟩
          (LinearVector.lit [1, 2, 3] rfl : LinearVector 3 Int) 1
        = .ok (LinearVector.lit [1 + 1, 2 + 1, 3 + 1] rfl) := by
  decide

/-- C5: for vectors `a` and `b` of the same length and element type, `a += b`
and `a -= b` succeed and leave `(old a[i]) + b[i]`, respectively
`(old a[i]) - b[i]`, in every element `i` of `a`; `b`, which both operators only
read, still reads as before. -/
theorem vector_compound_elementwise [Add T] [Sub T] (ndebug : Bool)
    (a b : LinearVector length T) (i : Nat) (hi : i < length) :
    (∃ w, a.operator_add_assign_vec ndebug b = .ok w ∧
        w.read ndebug i = .ok (a.data_.load ⟨i, hi⟩ + b.data_.load ⟨i, hi⟩) ∧
        b.read ndebug i = .ok (b.data_.load ⟨i, hi⟩)) ∧
      (∃ w, a.operator_sub_assign_vec ndebug b = .ok w ∧
        w.read ndebug i = .ok (a.data_.load ⟨i, hi⟩ - b.data_.load ⟨i, hi⟩) ∧
        b.read ndebug i = .ok (b.data_.load ⟨i, hi⟩)) := by
  refine ⟨⟨_, LinearVector.operator_add_assign_vec_eq ndebug a b, ?_, ?_⟩,
    ⟨_, LinearVector.operator_sub_assign_vec_eq ndebug a b, ?_, ?_⟩⟩
  · rw [LinearVector.read_pointwise ndebug _ _ hi]
  · exact LinearVector.read_lt ndebug b hi
  · rw [LinearVector.read_pointwise ndebug _ _ hi]
  · exact LinearVector.read_lt ndebug b hi

/-- C5 on the vectors of the tests `unarySum` and `unaryDifference`,
`a = {1, 2, 3}` and `b = {10, 10, 10}`: element 2 of `a` becomes 13 after
`a += b` and -7 after `a -= b`. -/
theorem vector_compound_elementwise_witness :
    2 < 3 ∧
      (∃ w, (LinearVector.lit [1, 2, 3] rfl : LinearVector 3 Int).operator_add_assign_vec false
            (LinearVector.lit [10, 10, 10] rfl) = .ok w ∧
          w.read false 2 = .ok 13 ∧
          (LinearVector.lit [10, 10, 10] rfl : LinearVector 3 Int).read false 2 = .ok 10) ∧
      (∃ w, (LinearVector.lit [1, 2, 3] rfl : LinearVector 3 Int).operator_sub_assign_vec false
            (LinearVector.lit [10, 10, 10] rfl) = .ok w ∧
          w.read false 2 = .ok (-7) ∧
          (LinearVector.lit [10, 10, 10] rfl : LinearVector 3 Int).read false 2 = .ok 10) :=
  ⟨by decide, vector_compound_elementwise false (LinearVector.lit [1, 2, 3] rfl)
    (LinearVector.lit [10, 10, 10] rfl) 2 (by decide)⟩

/-!
## Scalar on the left
-/

/-- C6: for every scalar `num` and every vector `v` over a ring, `num - v`,
which the code computes as `v * T(-1) + num`, succeeds and its element `i` is
`num - v[i]`: the result is the vector `scalar_minus_elementwise`. -/
theorem num_operator_sub_elementwise [Ring T] (ndebug : Bool) (uninit : StdArray T length)
    (num : T) (v : LinearVector length T) (i : Nat) (hi : i < length) :
    LinearVector.num_operator_sub ndebug uninit num v
        = .ok (LinearVector.scalar_minus_elementwise num v) ∧
      (LinearVector.scalar_minus_elementwise num v).read ndebug i
        = .ok (num - v.data_.load ⟨i, hi⟩) := by
  refine ⟨?_, LinearVector.read_pointwise ndebug _ _ hi⟩
  rw [LinearVector.num_operator_sub_eq]
  congr 1
  apply LinearVector.ext_of_load
  intro r
  simp only [LinearVector.scalar_minus_elementwise, LinearVector.load_pointwise]
  rw [Int.cast_neg, Int.cast_one, mul_neg_one, neg_add_eq_sub]

/-- C6 on the example of the specification: the vector `{1, 2, 3}` and the
scalar 10 give `{9, 8, 7}`. -/
theorem num_operator_sub_elementwise_witness :
    (0 < 3 ∧ 1 < 3 ∧ 2 < 3) ∧
      LinearVector.num_operator_sub true ⟨[0, 0, 0], rfl⟩ 10
          (LinearVector.lit [1, 2, 3] rfl : LinearVector 3 Int)
        = .ok (LinearVector.scalar_minus_elementwise 10 (LinearVector.lit [1, 2, 3] rfl)) ∧
      (LinearVector.scalar_minus_elementwise 10
          (LinearVector.lit [1, 2, 3] rfl : LinearVector 3 Int)).read true 0 = .ok 9 ∧
      (LinearVector.scalar_minus_elementwise 10
          (LinearVector.lit [1, 2, 3] rfl : LinearVector 3 Int)).read true 1 = .ok 8 ∧
      (LinearVector.scalar_minus_elementwise 10
          (LinearVector.lit [1, 2, 3] rfl : LinearVector 3 Int)).read true 2 = .ok 7 :=
  ⟨by decide,
    (num_operator_sub_elementwise true ⟨[0, 0, 0], rfl⟩ 10
      (LinearVector.lit [1, 2, 3] rfl : LinearVector 3 Int) 0 (by decide)).1,
    (num_operator_sub_elementwise true ⟨[0, 0, 0], rfl⟩ 10
      (LinearVector.lit [1, 2, 3] rfl : LinearVector 3 Int) 0 (by decide)).2,
    (num_operator_sub_elementwise true ⟨[0, 0, 0], rfl⟩ 10
      (LinearVector.lit [1, 2, 3] rfl : LinearVector 3 Int) 1 (by decide)).2,
    (num_operator_sub_elementwise true ⟨[0, 0, 0], rfl⟩ 10
      (LinearVector.lit [1, 2, 3] rfl : LinearVector 3 Int) 2 (by decide)).2⟩

/-- C7: for every scalar `num` and every vector `v`, `num / v` succeeds and its
element `i` is `(T(1) / v[i]) * num`: the reciprocal first, then the product
with the scalar. -/
theorem num_operator_div_reciprocal [Mul T] [Div T] [IntCast T] (ndebug : Bool)
    (uninit : StdArray T length) (num : T) (v : LinearVector length T) (i : Nat)
    (hi : i < length) :
    ∃ w, LinearVector.num_operator_div ndebug uninit num v = .ok w ∧
      w.read ndebug i = .ok ((((1 : Int) : T) / v.data_.load ⟨i, hi⟩) * num) := by
  refine ⟨_, LinearVector.num_operator_div_eq ndebug uninit num v, ?_⟩
  rw [LinearVector.read_pointwise ndebug _ _ hi, LinearVector.load_pointwise]

/-- C7 on the example of the specification, over the rationals: the vector
`{2, 1, 3/2}` and the scalar 1 give the reciprocals `{1/2, 1, 2/3}`. -/
theorem num_operator_div_reciprocal_witness :
    (0 < 3 ∧ 1 < 3 ∧ 2 < 3) ∧
      (∃ w, LinearVector.num_operator_div true ⟨[0, 0, 0], rfl⟩ 1
          (LinearVector.lit [2, 1, 3 / 2] rfl : LinearVector 3 ℚ) = .ok w ∧
        w.read true 0 = .ok (1 / 2)) ∧
      (∃ w, LinearVector.num_operator_div true ⟨[0, 0, 0], rfl⟩ 1
          (LinearVector.lit [2, 1, 3 / 2] rfl : LinearVector 3 ℚ) = .ok w ∧
        w.read true 1 = .ok 1) ∧
      (∃ w, LinearVector.num_operator_div true ⟨[0, 0, 0], rfl⟩ 1
          (LinearVector.lit [2, 1, 3 / 2] rfl : LinearVector 3 ℚ) = .ok w ∧
        w.read true 2 = .ok (2 / 3)) := by
  refine ⟨by decide, ?_, ?_, ?_⟩
  · have h := num_operator_div_reciprocal true ⟨[0, 0, 0], rfl⟩ 1
      (LinearVector.lit [2, 1, 3 / 2] rfl : LinearVector 3 ℚ) 0 (by decide)
    simpa [LinearVector.lit, StdArray.load] using h
  · have h := num_operator_div_reciprocal true ⟨[0, 0, 0], rfl⟩ 1
      (LinearVector.lit [2, 1, 3 / 2] rfl : LinearVector 3 ℚ) 1 (by decide)
    simpa [LinearVector.lit, StdArray.load] using h
  · have h := num_operator_div_reciprocal true ⟨[0, 0, 0], rfl⟩ 1
      (LinearVector.lit [2, 1, 3 / 2] rfl : LinearVector 3 ℚ) 2 (by decide)
    simpa [LinearVector.lit, StdArray.load] using h

/-- C8: for every scalar `num` and every vector `v`, `num + v` and `v + num`
succeed with the same vector, and so do `num * v` and `v * num`; element `i` of
the first is `v[i] + num`, of the second `v[i] * num`. -/
theorem scalar_broadcast_commutes [Add T] [Mul T] (ndebug : Bool) (uninit : StdArray T length)
    (num : T) (v : LinearVector length T) :
    (∃ w, LinearVector.num_operator_add ndebug uninit num v = .ok w ∧
        LinearVector.operator_add_num ndebug uninit v num = .ok w ∧
        ∀ r : Fin length, w.data_.load r = v.data_.load r + num) ∧
      (∃ w, LinearVector.num_operator_mul ndebug uninit num v = .ok w ∧
        LinearVector.operator_mul_num ndebug uninit v num = .ok w ∧
        ∀ r : Fin length, w.data_.load r = v.data_.load r * num) := by
  refine ⟨⟨_, LinearVector.operator_add_num_eq ndebug uninit v num,
      LinearVector.operator_add_num_eq ndebug uninit v num, fun r => ?_⟩,
    ⟨_, LinearVector.operator_mul_num_eq ndebug uninit v num,
      LinearVector.operator_mul_num_eq ndebug uninit v num, fun r => ?_⟩⟩ <;>
  rw [LinearVector.load_pointwise]

/-!
## Round trip and default construction
-/

/-- C9: in an element type where `x + y - y = x`, the sequence `a += b; a -= b`
succeeds and leaves `a` as it was, and `(a + b) - b` succeeds and equals `a`. -/
theorem add_then_sub_restores [Add T] [Sub T] (hT : ∀ x y : T, x + y - y = x) (ndebug : Bool)
    (uninit : StdArray T length) (a b : LinearVector length T) :
    (a.operator_add_assign_vec ndebug b >>= fun a1 => a1.operator_sub_assign_vec ndebug b)
        = .ok a ∧
      (LinearVector.operator_add ndebug uninit a b >>= fun s =>
        LinearVector.operator_sub ndebug uninit s b) = .ok a := by
  have key : (a.pointwise (fun r x => x + b.data_.load r)).pointwise
      (fun r x => x - b.data_.load r) = a := by
    apply LinearVector.ext_of_load
    intro r
    rw [LinearVector.load_pointwise, LinearVector.load_pointwise, hT]
  constructor
  · simp only [LinearVector.operator_add_assign_vec_eq, LinearVector.operator_sub_assign_vec_eq,
      bind, Except.bind, key]
  · simp only [LinearVector.operator_add_eq, LinearVector.operator_sub_eq, bind, Except.bind,
      key]

/-- C9 on integers, with `a = {1, 2, 3}` and `b = {10, 10, 10}`. -/
theorem add_then_sub_restores_witness :
    (∀ x y : Int, x + y - y = x) ∧
      ((LinearVector.lit [1, 2, 3] rfl : LinearVector 3 Int).operator_add_assign_vec true
            (LinearVector.lit [10, 10, 10] rfl) >>= fun a1 =>
          a1.operator_sub_assign_vec true (LinearVector.lit [10, 10, 10] rfl))
        = .ok (LinearVector.lit [1, 2, 3] rfl) ∧
      (LinearVector.operator_add true ⟨[0, 0, 0], rfl⟩
            (LinearVector.lit [1, 2, 3] rfl : LinearVector 3 Int)
            (LinearVector.lit [10, 10, 10] rfl) >>= fun s =>
          LinearVector.operator_sub true ⟨[0, 0, 0], rfl⟩ s (LinearVector.lit [10, 10, 10] rfl))
        = .ok (LinearVector.lit [1, 2, 3] rfl) :=
  ⟨fun x y => Int.add_sub_cancel x y,
    add_then_sub_restores (fun x y => Int.add_sub_cancel x y) true ⟨[0, 0, 0], rfl⟩
      (LinearVector.lit [1, 2, 3] rfl) (LinearVector.lit [10, 10, 10] rfl)⟩

/-- C10: for every `length > 0` and every element type, the default constructor
succeeds whatever the storage held before, and every element `i < length` of
the vector it builds reads `T(0)`.  An index `i < length` exists exactly when
`length > 0`. -/
theorem ctor_default_zeros [IntCast T] (ndebug : Bool)
    (uninit : StdArray T length) (i : Nat) (hi : i < length) :
    ∃ v, LinearVector.ctor_default uninit = .ok v ∧ v.read ndebug i = .ok ((0 : Int) : T) := by
  refine ⟨_, LinearVector.ctor_default_eq uninit, ?_⟩
  rw [LinearVector.read_pointwise ndebug _ _ hi]

/-- C10 on a vector of length 3 whose storage held `{7, 8, 9}`: element 2 of the
default-constructed vector reads 0. -/
theorem ctor_default_zeros_witness :
    2 < 3 ∧
      ∃ v : LinearVector 3 Int,
        LinearVector.ctor_default ⟨[7, 8, 9], rfl⟩ = .ok v ∧ v.read true 2 = .ok 0 :=
  ⟨by decide, ctor_default_zeros true ⟨[7, 8, 9], rfl⟩ 2 (by decide)⟩

/-!
## Indexed writes and negative indices
-/

theorem LinearVector.write_step_eq (ndebug : Bool) (v : LinearVector length T) (i : Nat) (x : T) :
    v.write_step ndebug i x =
      if h : i < length then (.ok (), ⟨v.data_.store ⟨i, h⟩ x⟩)
      else (.error (rangeFailure ndebug), v) := by
  rw [LinearVector.write_step, LinearVector.operator_index_eq]
  by_cases h : i < length <;> simp [h]

theorem to_size_t_neg {k : Int} (hk : k < 0) (hmin : -2 ^ 63 ≤ k) :
    (to_size_t k : Int) = k + 2 ^ 64 := by
  unfold to_size_t
  have h1 : k % 2 ^ 64 = k + 2 ^ 64 := by omega
  rw [h1]
  omega

/-- C11 at the input of the test `Exceptions.set1`, in a build without `NDEBUG`:
on the vector `{5, 5, 5}` of length 3 the write `v[3] = 10` is stopped by the
`assert` in `operator[]` and does not raise the `std::out_of_range` that the
comment of `operator[]` announces and the test catches; the vector is still
`{5, 5, 5}`. -/
theorem write_step_assert_first :
    (LinearVector.lit [5, 5, 5] rfl : LinearVector 3 Int).write_step false 3 10
        = (.error .assertion_failed, LinearVector.lit [5, 5, 5] rfl) ∧
      ((LinearVector.lit [5, 5, 5] rfl : LinearVector 3 Int).write_step false 3 10).1
        ≠ .error .out_of_range := by
  decide

/-- Both builds at once: for every vector `v`, every index `i >= length` and
every value `x`, the write `v[i] = x` fails, with `out_of_range` in a build with
`NDEBUG` and with the failed `assert` in a build without it, and the state of
`v` when it fails is `v` itself: no element was written. -/
theorem write_step_failed_keeps (ndebug : Bool) (v : LinearVector length T) (i : Nat) (x : T)
    (hi : length ≤ i) :
    v.write_step ndebug i x
        = (.error (if ndebug then .out_of_range else .assertion_failed), v) ∧
      v.write ndebug i x = .error (if ndebug then .out_of_range else .assertion_failed) := by
  have h : ¬ i < length := by omega
  constructor
  · rw [LinearVector.write_step_eq, dif_neg h]
    rfl
  · rw [LinearVector.write_eq, dif_neg h]
    rfl

/-- The input of the test `Exceptions.set1` in a build with `NDEBUG`:
`v[3] = 10` on `{5, 5, 5}` raises `out_of_range` and leaves `{5, 5, 5}`. -/
theorem write_step_failed_keeps_witness :
    3 ≤ 3 ∧
      (LinearVector.lit [5, 5, 5] rfl : LinearVector 3 Int).write_step true 3 10
        = (.error .out_of_range, LinearVector.lit [5, 5, 5] rfl) ∧
      (LinearVector.lit [5, 5, 5] rfl : LinearVector 3 Int).write true 3 10
        = .error .out_of_range :=
  ⟨by decide, write_step_failed_keeps true (LinearVector.lit [5, 5, 5] rfl) 3 10 (by decide)⟩

/-- C12: for every vector `v`, every index `i < length` and every value `x`, the
write `v[i] = x` succeeds; after it the read of index `i` returns `x` and the
read of every other index `j` gives what it gave before the write. -/
theorem write_then_read (ndebug : Bool) (v : LinearVector length T) (i : Nat) (x : T)
    (hi : i < length) :
    ∃ w, v.write ndebug i x = .ok w ∧ v.write_step ndebug i x = (.ok (), w) ∧
      w.read ndebug i = .ok x ∧
      ∀ j, j ≠ i → w.read ndebug j = v.read ndebug j := by
  refine ⟨⟨v.data_.store ⟨i, hi⟩ x⟩, ?_, ?_, ?_, ?_⟩
  · rw [LinearVector.write_eq, dif_pos hi]
  · rw [LinearVector.write_step_eq, dif_pos hi]
  · rw [LinearVector.read_lt ndebug _ hi, StdArray.load_store_same]
  · intro j hj
    rw [LinearVector.read_eq, LinearVector.read_eq]
    by_cases h : j < length
    · rw [dif_pos h, dif_pos h]
      have hne : (⟨i, hi⟩ : Fin length) ≠ ⟨j, h⟩ := fun e => hj (Fin.mk.inj e).symm
      rw [StdArray.load_store_ne _ hne]
    · rw [dif_neg h, dif_neg h]

/-- C12 on the second write of the test `Access.set`: after `v[1] = 11` on the
vector `{10, 0}` the read of index 1 returns 11 and index 0 still reads 10. -/
theorem write_then_read_witness :
    1 < 2 ∧
      ∃ w, (LinearVector.lit [10, 0] rfl : LinearVector 2 Int).write true 1 11 = .ok w ∧
        (LinearVector.lit [10, 0] rfl : LinearVector 2 Int).write_step true 1 11 = (.ok (), w) ∧
        w.read true 1 = .ok 11 ∧
        ∀ j, j ≠ 1 → w.read true j = (LinearVector.lit [10, 0] rfl : LinearVector 2 Int).read true j :=
  ⟨by decide, write_then_read true (LinearVector.lit [10, 0] rfl) 1 11 (by decide)⟩

/-- C13 at the input of the tests `Exceptions.get2` and `Exceptions.set2`, in a
build without `NDEBUG`: on the vector `{5, 5, 5}` of length 3 the accesses
`v[-1]`, which reach `operator[]` as index `2^64 - 1`, are stopped by the
`assert`, read and write alike, and do not end in the `std::out_of_range` that
the comments of `operator[]` announce and the tests catch. -/
theorem negative_index_assert_first :
    to_size_t (-1) = 2 ^ 64 - 1 ∧
      (LinearVector.lit [5, 5, 5] rfl : LinearVector 3 Int).read false (to_size_t (-1))
        = .error .assertion_failed ∧
      (LinearVector.lit [5, 5, 5] rfl : LinearVector 3 Int).read false (to_size_t (-1))
        ≠ .error .out_of_range ∧
      (LinearVector.lit [5, 5, 5] rfl : LinearVector 3 Int).write false (to_size_t (-1)) 10
        = .error .assertion_failed ∧
      (LinearVector.lit [5, 5, 5] rfl : LinearVector 3 Int).write false (to_size_t (-1)) 10
        ≠ .error .out_of_range := by
  decide

/-- Both builds at once: a negative signed 64-bit index `k` reaches `operator[]`
as `k + 2^64`, which is no index of a vector of length `length < 2^63`; the read
and the write both fail, with `out_of_range` in a build with `NDEBUG` and with
the failed `assert` in a build without it, no reference to an element is
produced and the vector is left as it was. -/
theorem negative_index_rejected (ndebug : Bool) (v : LinearVector length T) (k : Int) (x : T)
    (hN : length < 2 ^ 63) (hk : k < 0) (hmin : -2 ^ 63 ≤ k) :
    (to_size_t k : Int) = k + 2 ^ 64 ∧ length ≤ to_size_t k ∧
      v.operator_index_const ndebug (to_size_t k)
        = .error (if ndebug then .out_of_range else .assertion_failed) ∧
      v.operator_index ndebug (to_size_t k)
        = .error (if ndebug then .out_of_range else .assertion_failed) ∧
      v.read ndebug (to_size_t k)
        = .error (if ndebug then .out_of_range else .assertion_failed) ∧
      v.write_step ndebug (to_size_t k) x
        = (.error (if ndebug then .out_of_range else .assertion_failed), v) := by
  have hc := to_size_t_neg hk hmin
  have hge : length ≤ to_size_t k := by omega
  have h : ¬ to_size_t k < length := by omega
  refine ⟨hc, hge, ?_, ?_, ?_, ?_⟩
  · rw [LinearVector.operator_index_const_eq, dif_neg h]
    rfl
  · rw [LinearVector.operator_index_eq, dif_neg h]
    rfl
  · rw [LinearVector.read_eq, dif_neg h]
    rfl
  · rw [LinearVector.write_step_eq, dif_neg h]
    rfl

/-- The input of the tests `Exceptions.set2` and `Exceptions.get2` in a build
with `NDEBUG`: `v[-1]` on `{5, 5, 5}` is the access at `2^64 - 1`, which
raises `out_of_range` on both paths. -/
theorem negative_index_rejected_witness :
    (3 < 2 ^ 63 ∧ (-1 : Int) < 0 ∧ (-2 ^ 63 : Int) ≤ -1) ∧
      (to_size_t (-1) : Int) = -1 + 2 ^ 64 ∧ 3 ≤ to_size_t (-1) ∧
      (LinearVector.lit [5, 5, 5] rfl : LinearVector 3 Int).operator_index_const true
          (to_size_t (-1)) = .error .out_of_range ∧
      (LinearVector.lit [5, 5, 5] rfl : LinearVector 3 Int).operator_index true
          (to_size_t (-1)) = .error .out_of_range ∧
      (LinearVector.lit [5, 5, 5] rfl : LinearVector 3 Int).read true (to_size_t (-1))
        = .error .out_of_range ∧
      (LinearVector.lit [5, 5, 5] rfl : LinearVector 3 Int).write_step true (to_size_t (-1)) 10
        = (.error .out_of_range, LinearVector.lit [5, 5, 5] rfl) :=
  ⟨by decide, negative_index_rejected true (LinearVector.lit [5, 5, 5] rfl) (-1) 10
    (by decide) (by decide) (by decide)⟩

/-!
## Loops that always complete, and the scalar bound to an element
-/

theorem forLoop_ok {σ : Type} (bound : Nat) (body : Nat → σ → Except Failure σ)
    (hbody : ∀ (i : Nat), i < bound → ∀ s : σ, ∃ s', body i s = .ok s') :
    ∀ (n i : Nat) (s : σ), i + n = bound → ∃ s', forLoop body n i s = .ok s' := by
  intro n
  induction n with
  | zero =>
    intro i s _
    exact ⟨s, rfl⟩
  | succ n ih =>
    intro i s hi
    obtain ⟨s1, hs1⟩ := hbody i (by omega) s
    obtain ⟨s', hs'⟩ := ih (i + 1) s1 (by omega)
    refine ⟨s', ?_⟩
    simp only [forLoop, hs1, bind, Except.bind]
    exact hs'

theorem LinearVector.scalar_loop_ok (op : T → T → T) (this : LinearVector length T)
    (num : ScalarRef T length) : ∃ w, LinearVector.scalar_loop op this num = .ok w := by
  unfold LinearVector.scalar_loop
  apply forLoop_ok length _ _ length 0 this (by omega)
  intro i h s
  refine ⟨⟨s.data_.store ⟨i, h⟩ (op (s.data_.load ⟨i, h⟩) (num.value s))⟩, ?_⟩
  simp [StdArray.subscript_lt _ h, bind, Except.bind, pure, Except.pure]

theorem LinearVector.scalar_loop_element_aux (op : T → T → T) (k : Fin length) :
    ∀ (n i : Nat) (s : LinearVector length T), i + n = length →
      ∃ s', forLoop (fun i (this : LinearVector length T) => do
          let r ← this.data_.subscript i
          pure ⟨this.data_.store r (op (this.data_.load r)
            ((ScalarRef.element k).value this))⟩) n i s = .ok s' ∧
        ∀ r : Fin length, s'.data_.load r =
          if i ≤ r.val then
            op (s.data_.load r)
              (if i ≤ k.val ∧ k.val < r.val then op (s.data_.load k) (s.data_.load k)
               else s.data_.load k)
          else s.data_.load r := by
  intro n
  induction n with
  | zero =>
    intro i s hi
    refine ⟨s, rfl, fun r => ?_⟩
    have : ¬ i ≤ r.val := by have := r.isLt; omega
    simp [this]
  | succ n ih =>
    intro i s hi
    have hlt : i < length := by omega
    obtain ⟨s', hs', hload⟩ :=
      ih (i + 1) ⟨s.data_.store ⟨i, hlt⟩ (op (s.data_.load ⟨i, hlt⟩) (s.data_.load k))⟩ (by omega)
    refine ⟨s', ?_, fun r => ?_⟩
    · simp only [forLoop, StdArray.subscript_lt _ hlt, ScalarRef.value, bind, Except.bind, pure,
        Except.pure]
      simp only [ScalarRef.value, bind, Except.bind, pure, Except.pure] at hs'
      exact hs'
    · rw [hload r]
      by_cases hr : r.val = i
      · have hr2 : r = ⟨i, hlt⟩ := Fin.ext hr
        subst hr2
        simp only [Fin.val_mk, StdArray.load_store_same]
        split_ifs <;> first | rfl | (exfalso; omega)
      · have hne : (⟨i, hlt⟩ : Fin length) ≠ r := fun e => hr (by rw [← e])
        rw [StdArray.load_store_ne _ hne]
        by_cases hk : k.val = i
        · have hk2 : k = ⟨i, hlt⟩ := Fin.ext hk
          subst hk2
          simp only [Fin.val_mk, StdArray.load_store_same]
          split_ifs <;> first | rfl | (exfalso; omega)
        · have hnk : (⟨i, hlt⟩ : Fin length) ≠ k := fun e => hk (by rw [← e])
          rw [StdArray.load_store_ne _ hnk]
          split_ifs <;> first | rfl | (exfalso; omega)

/-- With `num` bound to element `k` of the receiver, the shared loop combines the
elements up to `k` with the old `v[k]` and the elements after `k` with the
rewritten element `op v[k] v[k]`. -/
theorem LinearVector.scalar_loop_element (op : T → T → T) (this : LinearVector length T)
    (k : Fin length) :
    LinearVector.scalar_loop op this (.element k)
      = .ok (this.pointwise (fun r x =>
          op x (if k.val < r.val then op (this.data_.load k) (this.data_.load k)
                else this.data_.load k))) := by
  obtain ⟨s', hs', hload⟩ :=
    LinearVector.scalar_loop_element_aux op k length 0 this (by omega)
  unfold LinearVector.scalar_loop
  rw [hs']
  congr 1
  apply LinearVector.ext_of_load
  intro r
  rw [hload r, LinearVector.load_pointwise]
  simp

/-!
## Copies, free operators and the length

A `LinearVector` holds its `std::array` by value, and so does a value of the
embedding: an operation on one object is a function of that object and of the
operands it reads, and it returns the new state of that object alone.
-/

/-- C14: the copy constructor and `operator=` both succeed with a vector that
reads like the source at every index.  A later write `c[i] = x` or `c += x` on
the copy `c` changes element `i` of the copy while the source still reads its
own element `i`; a later write on the source changes the source while the copy
still reads the element it copied. -/
theorem copy_equal_independent [Add T] (ndebug : Bool) (uninit : StdArray T length)
    (this src : LinearVector length T) (i : Nat) (x : T) (hi : i < length) :
    ∃ c a, LinearVector.ctor_copy ndebug uninit src = .ok c ∧
      this.operator_assign ndebug src = .ok a ∧
      (∀ j, c.read ndebug j = src.read ndebug j) ∧
      (∀ j, a.read ndebug j = src.read ndebug j) ∧
      (∃ c', c.write ndebug i x = .ok c' ∧ c'.read ndebug i = .ok x ∧
        src.read ndebug i = .ok (src.data_.load ⟨i, hi⟩)) ∧
      (∃ c', c.operator_add_assign (.object x) = .ok c' ∧
        c'.read ndebug i = .ok (src.data_.load ⟨i, hi⟩ + x) ∧
        src.read ndebug i = .ok (src.data_.load ⟨i, hi⟩)) ∧
      (∃ s', src.write ndebug i x = .ok s' ∧ s'.read ndebug i = .ok x ∧
        c.read ndebug i = .ok (src.data_.load ⟨i, hi⟩) ∧
        a.read ndebug i = .ok (src.data_.load ⟨i, hi⟩)) := by
  refine ⟨src, src, LinearVector.ctor_copy_eq ndebug uninit src,
    LinearVector.operator_assign_eq ndebug this src, fun _ => rfl, fun _ => rfl, ?_, ?_, ?_⟩
  · refine ⟨⟨src.data_.store ⟨i, hi⟩ x⟩, ?_, ?_, LinearVector.read_lt ndebug src hi⟩
    · rw [LinearVector.write_eq, dif_pos hi]
    · rw [LinearVector.read_lt ndebug _ hi, StdArray.load_store_same]
  · refine ⟨_, LinearVector.scalar_loop_object _ src x, ?_, LinearVector.read_lt ndebug src hi⟩
    rw [LinearVector.read_pointwise ndebug _ _ hi]
  · refine ⟨⟨src.data_.store ⟨i, hi⟩ x⟩, ?_, ?_, LinearVector.read_lt ndebug src hi,
      LinearVector.read_lt ndebug src hi⟩
    · rw [LinearVector.write_eq, dif_pos hi]
    · rw [LinearVector.read_lt ndebug _ hi, StdArray.load_store_same]

/-- C14 on the vector `{999, 999, 999}` of the test `Constructors.copy`, with the
write of 5 at index 1. -/
theorem copy_equal_independent_witness :
    1 < 3 ∧
      ∃ c a : LinearVector 3 Int,
        LinearVector.ctor_copy true ⟨[0, 0, 0], rfl⟩ (LinearVector.lit [999, 999, 999] rfl)
          = .ok c ∧
        (LinearVector.lit [1, 2, 3] rfl : LinearVector 3 Int).operator_assign true
          (LinearVector.lit [999, 999, 999] rfl) = .ok a ∧
        (∀ j, c.read true j
          = (LinearVector.lit [999, 999, 999] rfl : LinearVector 3 Int).read true j) ∧
        (∀ j, a.read true j
          = (LinearVector.lit [999, 999, 999] rfl : LinearVector 3 Int).read true j) ∧
        (∃ c', c.write true 1 5 = .ok c' ∧ c'.read true 1 = .ok 5 ∧
          (LinearVector.lit [999, 999, 999] rfl : LinearVector 3 Int).read true 1 = .ok 999) ∧
        (∃ c', c.operator_add_assign (.object 5) = .ok c' ∧
          c'.read true 1 = .ok 1004 ∧
          (LinearVector.lit [999, 999, 999] rfl : LinearVector 3 Int).read true 1 = .ok 999) ∧
        (∃ s', (LinearVector.lit [999, 999, 999] rfl : LinearVector 3 Int).write true 1 5
            = .ok s' ∧ s'.read true 1 = .ok 5 ∧
          c.read true 1 = .ok 999 ∧ a.read true 1 = .ok 999) :=
  ⟨by decide, copy_equal_independent true ⟨[0, 0, 0], rfl⟩ (LinearVector.lit [1, 2, 3] rfl)
    (LinearVector.lit [999, 999, 999] rfl) 1 5 (by decide)⟩

/-- C15, as stated, fails for the scalar on the left of `-` and `/`:
`10 - {1, 2, 3}` is `{9, 8, 7}` while `-= 10` on a copy gives `{-9, -8, -7}`,
and over the integers `6 / {2, 3, 1}` is `{0, 0, 6}` while `/= 6` on a copy
gives `{0, 0, 0}`. -/
theorem scalar_left_not_compound :
    LinearVector.num_operator_sub true ⟨[0, 0, 0], rfl⟩ 10
        (LinearVector.lit [1, 2, 3] rfl : LinearVector 3 Int)
      = .ok (LinearVector.lit [9, 8, 7] rfl) ∧
    (LinearVector.ctor_copy true ⟨[0, 0, 0], rfl⟩
        (LinearVector.lit [1, 2, 3] rfl : LinearVector 3 Int) >>=
      fun temp => temp.operator_sub_assign (.object 10))
      = .ok (LinearVector.lit [-9, -8, -7] rfl) ∧
    LinearVector.num_operator_div true ⟨[⟨0⟩, ⟨0⟩, ⟨0⟩], rfl⟩ ⟨6⟩
        (LinearVector.lit [⟨2⟩, ⟨3⟩, ⟨1⟩] rfl : LinearVector 3 CInt)
      = .ok (LinearVector.lit [⟨0⟩, ⟨0⟩, ⟨6⟩] rfl) ∧
    (LinearVector.ctor_copy true ⟨[⟨0⟩, ⟨0⟩, ⟨0⟩], rfl⟩
        (LinearVector.lit [⟨2⟩, ⟨3⟩, ⟨1⟩] rfl : LinearVector 3 CInt) >>=
      fun temp => temp.operator_div_assign (.object ⟨6⟩))
      = .ok (LinearVector.lit [⟨0⟩, ⟨0⟩, ⟨0⟩] rfl) ∧
    (LinearVector.lit [9, 8, 7] rfl : LinearVector 3 Int)
      ≠ LinearVector.lit [-9, -8, -7] rfl ∧
    (LinearVector.lit [⟨0⟩, ⟨0⟩, ⟨6⟩] rfl : LinearVector 3 CInt)
      ≠ LinearVector.lit [⟨0⟩, ⟨0⟩, ⟨0⟩] rfl := by
  decide

theorem LinearVector.read_after (ndebug : Bool) {res : Except Failure (LinearVector length T)}
    {w : LinearVector length T} (h : res = .ok w) (operand : LinearVector length T)
    (r : Fin length) (x : T) :
    (res >>= fun _ => operand.read ndebug r.val) = .ok (operand.data_.load r) ∧
      (res >>= fun w => w.write ndebug r.val x >>= fun _ => operand.read ndebug r.val)
        = .ok (operand.data_.load r) := by
  subst h
  constructor
  · simp only [bind, Except.bind]
    exact LinearVector.read_lt ndebug operand r.isLt
  · simp only [bind, Except.bind, LinearVector.write_eq, dif_pos r.isLt]
    exact LinearVector.read_lt ndebug operand r.isLt

/-- C15 (amended): every free operator succeeds and returns a new vector, whose
elements are given for each operator.  For the two operators on vectors, the
four with the scalar on the right, and `num + v` and `num * v`, it is what the
compound operator of the same sign leaves in a copy of the vector operand;
`num - v` is what `*= T(-1)` followed by `+= num` leave in a copy, and `num / v`
is what the loop `temp[i] = T(1) / temp[i]` followed by `*= num` leaves in a
copy.  After the call, and also after a later write into the returned vector,
every vector operand reads at every index the element it held before the
call. -/
theorem free_operators_on_copy [Add T] [Sub T] [Mul T] [Div T] [IntCast T] (ndebug : Bool)
    (uninit : StdArray T length) (left right v : LinearVector length T) (num : T) :
    (∃ w, LinearVector.operator_add ndebug uninit left right = .ok w ∧
        (LinearVector.ctor_copy ndebug uninit left >>= fun temp =>
          temp.operator_add_assign_vec ndebug right) = .ok w ∧
        (∀ r : Fin length, w.data_.load r = left.data_.load r + right.data_.load r) ∧
        (∀ (r : Fin length) (x : T),
          (LinearVector.operator_add ndebug uninit left right >>= fun _ => left.read ndebug r.val)
            = .ok (left.data_.load r) ∧
          (LinearVector.operator_add ndebug uninit left right >>= fun w => w.write ndebug r.val x >>= fun _ =>
            left.read ndebug r.val) = .ok (left.data_.load r)) ∧
        (∀ (r : Fin length) (x : T),
          (LinearVector.operator_add ndebug uninit left right >>= fun _ => right.read ndebug r.val)
            = .ok (right.data_.load r) ∧
          (LinearVector.operator_add ndebug uninit left right >>= fun w => w.write ndebug r.val x >>= fun _ =>
            right.read ndebug r.val) = .ok (right.data_.load r))) ∧
      (∃ w, LinearVector.operator_sub ndebug uninit left right = .ok w ∧
        (LinearVector.ctor_copy ndebug uninit left >>= fun temp =>
          temp.operator_sub_assign_vec ndebug right) = .ok w ∧
        (∀ r : Fin length, w.data_.load r = left.data_.load r - right.data_.load r) ∧
        (∀ (r : Fin length) (x : T),
          (LinearVector.operator_sub ndebug uninit left right >>= fun _ => left.read ndebug r.val)
            = .ok (left.data_.load r) ∧
          (LinearVector.operator_sub ndebug uninit left right >>= fun w => w.write ndebug r.val x >>= fun _ =>
            left.read ndebug r.val) = .ok (left.data_.load r)) ∧
        (∀ (r : Fin length) (x : T),
          (LinearVector.operator_sub ndebug uninit left right >>= fun _ => right.read ndebug r.val)
            = .ok (right.data_.load r) ∧
          (LinearVector.operator_sub ndebug uninit left right >>= fun w => w.write ndebug r.val x >>= fun _ =>
            right.read ndebug r.val) = .ok (right.data_.load r))) ∧
      (∃ w, LinearVector.operator_add_num ndebug uninit v num = .ok w ∧
        (LinearVector.ctor_copy ndebug uninit v >>= fun temp =>
          temp.operator_add_assign (.object num)) = .ok w ∧
        (∀ r : Fin length, w.data_.load r = v.data_.load r + num) ∧
        (∀ (r : Fin length) (x : T),
          (LinearVector.operator_add_num ndebug uninit v num >>= fun _ => v.read ndebug r.val)
            = .ok (v.data_.load r) ∧
          (LinearVector.operator_add_num ndebug uninit v num >>= fun w => w.write ndebug r.val x >>= fun _ =>
            v.read ndebug r.val) = .ok (v.data_.load r))) ∧
      (∃ w, LinearVector.operator_sub_num ndebug uninit v num = .ok w ∧
        (LinearVector.ctor_copy ndebug uninit v >>= fun temp =>
          temp.operator_sub_assign (.object num)) = .ok w ∧
        (∀ r : Fin length, w.data_.load r = v.data_.load r - num) ∧
        (∀ (r : Fin length) (x : T),
          (LinearVector.operator_sub_num ndebug uninit v num >>= fun _ => v.read ndebug r.val)
            = .ok (v.data_.load r) ∧
          (LinearVector.operator_sub_num ndebug uninit v num >>= fun w => w.write ndebug r.val x >>= fun _ =>
            v.read ndebug r.val) = .ok (v.data_.load r))) ∧
      (∃ w, LinearVector.operator_mul_num ndebug uninit v num = .ok w ∧
        (LinearVector.ctor_copy ndebug uninit v >>= fun temp =>
          temp.operator_mul_assign (.object num)) = .ok w ∧
        (∀ r : Fin length, w.data_.load r = v.data_.load r * num) ∧
        (∀ (r : Fin length) (x : T),
          (LinearVector.operator_mul_num ndebug uninit v num >>= fun _ => v.read ndebug r.val)
            = .ok (v.data_.load r) ∧
          (LinearVector.operator_mul_num ndebug uninit v num >>= fun w => w.write ndebug r.val x >>= fun _ =>
            v.read ndebug r.val) = .ok (v.data_.load r))) ∧
      (∃ w, LinearVector.operator_div_num ndebug uninit v num = .ok w ∧
        (LinearVector.ctor_copy ndebug uninit v >>= fun temp =>
          temp.operator_div_assign (.object num)) = .ok w ∧
        (∀ r : Fin length, w.data_.load r = v.data_.load r / num) ∧
        (∀ (r : Fin length) (x : T),
          (LinearVector.operator_div_num ndebug uninit v num >>= fun _ => v.read ndebug r.val)
            = .ok (v.data_.load r) ∧
          (LinearVector.operator_div_num ndebug uninit v num >>= fun w => w.write ndebug r.val x >>= fun _ =>
            v.read ndebug r.val) = .ok (v.data_.load r))) ∧
      (∃ w, LinearVector.num_operator_add ndebug uninit num v = .ok w ∧
        (LinearVector.ctor_copy ndebug uninit v >>= fun temp =>
          temp.operator_add_assign (.object num)) = .ok w ∧
        (∀ r : Fin length, w.data_.load r = v.data_.load r + num) ∧
        (∀ (r : Fin length) (x : T),
          (LinearVector.num_operator_add ndebug uninit num v >>= fun _ => v.read ndebug r.val)
            = .ok (v.data_.load r) ∧
          (LinearVector.num_operator_add ndebug uninit num v >>= fun w => w.write ndebug r.val x >>= fun _ =>
            v.read ndebug r.val) = .ok (v.data_.load r))) ∧
      (∃ w, LinearVector.num_operator_mul ndebug uninit num v = .ok w ∧
        (LinearVector.ctor_copy ndebug uninit v >>= fun temp =>
          temp.operator_mul_assign (.object num)) = .ok w ∧
        (∀ r : Fin length, w.data_.load r = v.data_.load r * num) ∧
        (∀ (r : Fin length) (x : T),
          (LinearVector.num_operator_mul ndebug uninit num v >>= fun _ => v.read ndebug r.val)
            = .ok (v.data_.load r) ∧
          (LinearVector.num_operator_mul ndebug uninit num v >>= fun w => w.write ndebug r.val x >>= fun _ =>
            v.read ndebug r.val) = .ok (v.data_.load r))) ∧
      (∃ w, LinearVector.num_operator_sub ndebug uninit num v = .ok w ∧
        (LinearVector.ctor_copy ndebug uninit v >>= fun temp =>
          temp.operator_mul_assign (.object ((-1 : Int) : T)) >>= fun temp =>
          temp.operator_add_assign (.object num)) = .ok w ∧
        (∀ r : Fin length, w.data_.load r = v.data_.load r * ((-1 : Int) : T) + num) ∧
        (∀ (r : Fin length) (x : T),
          (LinearVector.num_operator_sub ndebug uninit num v >>= fun _ => v.read ndebug r.val)
            = .ok (v.data_.load r) ∧
          (LinearVector.num_operator_sub ndebug uninit num v >>= fun w => w.write ndebug r.val x >>= fun _ =>
            v.read ndebug r.val) = .ok (v.data_.load r))) ∧
      (∃ w, LinearVector.num_operator_div ndebug uninit num v = .ok w ∧
        (LinearVector.ctor_copy ndebug uninit v >>= fun temp =>
          forLoop (fun i (temp : LinearVector length T) => do
            let s ← temp.operator_index ndebug i
            let r ← temp.operator_index ndebug i
            pure ⟨temp.data_.store r (((1 : Int) : T) / temp.data_.load s)⟩) length 0 temp
            >>= fun temp => temp.operator_mul_assign (.object num)) = .ok w ∧
        (∀ r : Fin length, w.data_.load r = ((1 : Int) : T) / v.data_.load r * num) ∧
        (∀ (r : Fin length) (x : T),
          (LinearVector.num_operator_div ndebug uninit num v >>= fun _ => v.read ndebug r.val)
            = .ok (v.data_.load r) ∧
          (LinearVector.num_operator_div ndebug uninit num v >>= fun w => w.write ndebug r.val x >>= fun _ =>
            v.read ndebug r.val) = .ok (v.data_.load r))) := by
  have hloop : forLoop (fun i (temp : LinearVector length T) => do
      let s ← temp.operator_index ndebug i
      let r ← temp.operator_index ndebug i
      pure ⟨temp.data_.store r (((1 : Int) : T) / temp.data_.load s)⟩) length 0 v
        = .ok (v.pointwise (fun _ y => ((1 : Int) : T) / y)) := by
    apply forLoop_pointwise
    intro i h s
    simp [LinearVector.operator_index_eq, h, bind, Except.bind, pure, Except.pure]
  simp only [bind, Except.bind] at hloop
  refine ⟨⟨_, LinearVector.operator_add_eq ndebug uninit left right, ?_, ?_,
      LinearVector.read_after ndebug (LinearVector.operator_add_eq ndebug uninit left right) left,
      LinearVector.read_after ndebug (LinearVector.operator_add_eq ndebug uninit left right)
        right⟩,
    ⟨_, LinearVector.operator_sub_eq ndebug uninit left right, ?_, ?_,
      LinearVector.read_after ndebug (LinearVector.operator_sub_eq ndebug uninit left right) left,
      LinearVector.read_after ndebug (LinearVector.operator_sub_eq ndebug uninit left right)
        right⟩,
    ⟨_, LinearVector.operator_add_num_eq ndebug uninit v num, ?_, ?_,
      LinearVector.read_after ndebug (LinearVector.operator_add_num_eq ndebug uninit v num) v⟩,
    ⟨_, LinearVector.operator_sub_num_eq ndebug uninit v num, ?_, ?_,
      LinearVector.read_after ndebug (LinearVector.operator_sub_num_eq ndebug uninit v num) v⟩,
    ⟨_, LinearVector.operator_mul_num_eq ndebug uninit v num, ?_, ?_,
      LinearVector.read_after ndebug (LinearVector.operator_mul_num_eq ndebug uninit v num) v⟩,
    ⟨_, LinearVector.operator_div_num_eq ndebug uninit v num, ?_, ?_,
      LinearVector.read_after ndebug (LinearVector.operator_div_num_eq ndebug uninit v num) v⟩,
    ⟨_, LinearVector.operator_add_num_eq ndebug uninit v num, ?_, ?_,
      LinearVector.read_after ndebug (LinearVector.operator_add_num_eq ndebug uninit v num) v⟩,
    ⟨_, LinearVector.operator_mul_num_eq ndebug uninit v num, ?_, ?_,
      LinearVector.read_after ndebug (LinearVector.operator_mul_num_eq ndebug uninit v num) v⟩,
    ⟨_, LinearVector.num_operator_sub_eq ndebug uninit num v, ?_, ?_,
      LinearVector.read_after ndebug (LinearVector.num_operator_sub_eq ndebug uninit num v) v⟩,
    ⟨_, LinearVector.num_operator_div_eq ndebug uninit num v, ?_, ?_,
      LinearVector.read_after ndebug (LinearVector.num_operator_div_eq ndebug uninit num v) v⟩⟩
  all_goals first
    | (intro r; simp only [LinearVector.load_pointwise])
    | simp only [LinearVector.ctor_copy_eq, bind, Except.bind, hloop,
        LinearVector.operator_add_assign_vec_eq, LinearVector.operator_sub_assign_vec_eq,
        LinearVector.operator_add_assign, LinearVector.operator_sub_assign,
        LinearVector.operator_mul_assign, LinearVector.operator_div_assign,
        LinearVector.scalar_loop_object]

theorem LinearVector.ok_has_length {r : Except Failure (LinearVector length T)}
    (h : ∃ w, r = .ok w) : ∃ w, r = .ok w ∧ w.data_.elems.length = length := by
  obtain ⟨w, hw⟩ := h
  exact ⟨w, hw, w.data_.size_eq⟩

/-- C16: the vector every constructor builds (the list constructor on a list of
`length` values) and the vector every operation leaves or returns (the indexed
write at an index `i < length`, `operator=`, the compound operators on vectors
and scalars, every free operator) has exactly `length` elements. -/
theorem length_never_changes [Add T] [Sub T] [Mul T] [Div T] [IntCast T] (ndebug : Bool)
    (uninit : StdArray T length) (args : List T) (a b : LinearVector length T) (num x : T)
    (ref : LinearVector.ScalarRef T length) (i : Nat)
    (hargs : args.length = length) (hi : i < length) :
    (∃ w, LinearVector.ctor_default uninit = .ok w ∧ w.data_.elems.length = length) ∧
      (∃ w, LinearVector.ctor_list ndebug uninit args = .ok w ∧
        w.data_.elems.length = length) ∧
      (∃ w, LinearVector.ctor_copy ndebug uninit a = .ok w ∧ w.data_.elems.length = length) ∧
      (∃ w, a.write ndebug i x = .ok w ∧ w.data_.elems.length = length) ∧
      (∃ w, a.operator_assign ndebug b = .ok w ∧ w.data_.elems.length = length) ∧
      (∃ w, a.operator_add_assign_vec ndebug b = .ok w ∧ w.data_.elems.length = length) ∧
      (∃ w, a.operator_sub_assign_vec ndebug b = .ok w ∧ w.data_.elems.length = length) ∧
      (∃ w, a.operator_add_assign ref = .ok w ∧ w.data_.elems.length = length) ∧
      (∃ w, a.operator_sub_assign ref = .ok w ∧ w.data_.elems.length = length) ∧
      (∃ w, a.operator_mul_assign ref = .ok w ∧ w.data_.elems.length = length) ∧
      (∃ w, a.operator_div_assign ref = .ok w ∧ w.data_.elems.length = length) ∧
      (∃ w, LinearVector.operator_add ndebug uninit a b = .ok w ∧
        w.data_.elems.length = length) ∧
      (∃ w, LinearVector.operator_sub ndebug uninit a b = .ok w ∧
        w.data_.elems.length = length) ∧
      (∃ w, LinearVector.operator_add_num ndebug uninit a num = .ok w ∧
        w.data_.elems.length = length) ∧
      (∃ w, LinearVector.operator_sub_num ndebug uninit a num = .ok w ∧
        w.data_.elems.length = length) ∧
      (∃ w, LinearVector.operator_mul_num ndebug uninit a num = .ok w ∧
        w.data_.elems.length = length) ∧
      (∃ w, LinearVector.operator_div_num ndebug uninit a num = .ok w ∧
        w.data_.elems.length = length) ∧
      (∃ w, LinearVector.num_operator_add ndebug uninit num a = .ok w ∧
        w.data_.elems.length = length) ∧
      (∃ w, LinearVector.num_operator_sub ndebug uninit num a = .ok w ∧
        w.data_.elems.length = length) ∧
      (∃ w, LinearVector.num_operator_mul ndebug uninit num a = .ok w ∧
        w.data_.elems.length = length) ∧
      (∃ w, LinearVector.num_operator_div ndebug uninit num a = .ok w ∧
        w.data_.elems.length = length) :=
  ⟨LinearVector.ok_has_length ⟨_, LinearVector.ctor_default_eq uninit⟩,
    LinearVector.ok_has_length ⟨LinearVector.lit args hargs, by
      rw [LinearVector.ctor_list_eq, dif_pos hargs]⟩,
    LinearVector.ok_has_length ⟨_, LinearVector.ctor_copy_eq ndebug uninit a⟩,
    LinearVector.ok_has_length ⟨⟨a.data_.store ⟨i, hi⟩ x⟩, by
      rw [LinearVector.write_eq, dif_pos hi]⟩,
    LinearVector.ok_has_length ⟨_, LinearVector.operator_assign_eq ndebug a b⟩,
    LinearVector.ok_has_length ⟨_, LinearVector.operator_add_assign_vec_eq ndebug a b⟩,
    LinearVector.ok_has_length ⟨_, LinearVector.operator_sub_assign_vec_eq ndebug a b⟩,
    LinearVector.ok_has_length (LinearVector.scalar_loop_ok _ a ref),
    LinearVector.ok_has_length (LinearVector.scalar_loop_ok _ a ref),
    LinearVector.ok_has_length (LinearVector.scalar_loop_ok _ a ref),
    LinearVector.ok_has_length (LinearVector.scalar_loop_ok _ a ref),
    LinearVector.ok_has_length ⟨_, LinearVector.operator_add_eq ndebug uninit a b⟩,
    LinearVector.ok_has_length ⟨_, LinearVector.operator_sub_eq ndebug uninit a b⟩,
    LinearVector.ok_has_length ⟨_, LinearVector.operator_add_num_eq ndebug uninit a num⟩,
    LinearVector.ok_has_length ⟨_, LinearVector.operator_sub_num_eq ndebug uninit a num⟩,
    LinearVector.ok_has_length ⟨_, LinearVector.operator_mul_num_eq ndebug uninit a num⟩,
    LinearVector.ok_has_length ⟨_, LinearVector.operator_div_num_eq ndebug uninit a num⟩,
    LinearVector.ok_has_length ⟨_, LinearVector.operator_add_num_eq ndebug uninit a num⟩,
    LinearVector.ok_has_length ⟨_, LinearVector.num_operator_sub_eq ndebug uninit num a⟩,
    LinearVector.ok_has_length ⟨_, LinearVector.operator_mul_num_eq ndebug uninit a num⟩,
    LinearVector.ok_has_length ⟨_, LinearVector.num_operator_div_eq ndebug uninit num a⟩⟩

/-- C16 on vectors of length 3: the list constructor on `{1, 2, 3}`, the write
`v[2] = 7` and `v += v[0]` on `{1, 2, 3}` each give a vector of 3 elements. -/
theorem length_never_changes_witness :
    ([1, 2, 3].length = 3 ∧ 2 < 3) ∧
      (∃ w : LinearVector 3 Int, LinearVector.ctor_list true ⟨[0, 0, 0], rfl⟩ [1, 2, 3] = .ok w ∧
        w.data_.elems.length = 3) ∧
      (∃ w, (LinearVector.lit [1, 2, 3] rfl : LinearVector 3 Int).write true 2 7 = .ok w ∧
        w.data_.elems.length = 3) ∧
      (∃ w, (LinearVector.lit [1, 2, 3] rfl : LinearVector 3 Int).operator_add_assign
          (.element 0) = .ok w ∧ w.data_.elems.length = 3) :=
  ⟨⟨rfl, by decide⟩,
    (length_never_changes true (⟨[0, 0, 0], rfl⟩ : StdArray Int 3) [1, 2, 3]
      (LinearVector.lit [1, 2, 3] rfl : LinearVector 3 Int) (LinearVector.lit [1, 2, 3] rfl) 2 7
      (.element 0) 2 rfl (by decide)).2.1,
    (length_never_changes true (⟨[0, 0, 0], rfl⟩ : StdArray Int 3) [1, 2, 3]
      (LinearVector.lit [1, 2, 3] rfl : LinearVector 3 Int) (LinearVector.lit [1, 2, 3] rfl) 2 7
      (.element 0) 2 rfl (by decide)).2.2.2.1,
    (length_never_changes true (⟨[0, 0, 0], rfl⟩ : StdArray Int 3) [1, 2, 3]
      (LinearVector.lit [1, 2, 3] rfl : LinearVector 3 Int) (LinearVector.lit [1, 2, 3] rfl) 2 7
      (.element 0) 2 rfl (by decide)).2.2.2.2.2.2.2.1⟩

/-!
## Integer elements, and operations that cannot fail
-/

theorem tdiv_one_of_natAbs_gt {x : Int} (h : 1 < x.natAbs) : Int.tdiv 1 x = 0 := by
  rcases Int.lt_or_le 0 x with hx | hx
  · exact Int.tdiv_eq_zero_of_lt (by decide) (by omega)
  · have h2 : 1 < -x := by omega
    have h3 : Int.tdiv 1 (-x) = 0 := Int.tdiv_eq_zero_of_lt (by decide) h2
    have h4 : Int.tdiv 1 x = -Int.tdiv 1 (-x) := by
      rw [Int.tdiv_neg, Int.neg_neg]
    rw [h4, h3]
    rfl

/-- C17: over an integer element type with truncating division, element `i` of
`num / v` is 0 whenever `|v[i]| > 1`, whatever `num` is: the code divides 1 by
`v[i]` first and multiplies the quotient, 0, by `num`. -/
theorem num_operator_div_integer (ndebug : Bool) (uninit : StdArray CInt length) (num : CInt)
    (v : LinearVector length CInt) (i : Nat) (hi : i < length)
    (hv : 1 < (v.data_.load ⟨i, hi⟩).val.natAbs) :
    ∃ w, LinearVector.num_operator_div ndebug uninit num v = .ok w ∧
      w.read ndebug i = .ok ⟨0⟩ := by
  refine ⟨_, LinearVector.num_operator_div_eq ndebug uninit num v, ?_⟩
  rw [LinearVector.read_pointwise ndebug _ _ hi, LinearVector.load_pointwise]
  congr 1
  show (⟨Int.tdiv 1 (v.data_.load ⟨i, hi⟩).val * num.val⟩ : CInt) = ⟨0⟩
  rw [tdiv_one_of_natAbs_gt hv, Int.zero_mul]

/-- C17 on the example `num = 6`, `v = {2, 3, 1}`: `num / v` is `{0, 0, 6}`,
while the quotients `6 / 2`, `6 / 3`, `6 / 1` are `{3, 2, 6}`. -/
theorem num_operator_div_integer_witness :
    (0 < 3 ∧ 1 < (2 : Int).natAbs) ∧
      (∃ w, LinearVector.num_operator_div true ⟨[⟨0⟩, ⟨0⟩, ⟨0⟩], rfl⟩ ⟨6⟩
          (LinearVector.lit [⟨2⟩, ⟨3⟩, ⟨1⟩] rfl : LinearVector 3 CInt) = .ok w ∧
        w.read true 0 = .ok ⟨0⟩) ∧
      LinearVector.num_operator_div true ⟨[⟨0⟩, ⟨0⟩, ⟨0⟩], rfl⟩ ⟨6⟩
          (LinearVector.lit [⟨2⟩, ⟨3⟩, ⟨1⟩] rfl : LinearVector 3 CInt)
        = .ok (LinearVector.lit [⟨0⟩, ⟨0⟩, ⟨6⟩] rfl) ∧
      (LinearVector.lit [(⟨6⟩ : CInt) / ⟨2⟩, (⟨6⟩ : CInt) / ⟨3⟩, (⟨6⟩ : CInt) / ⟨1⟩] rfl
          : LinearVector 3 CInt) = LinearVector.lit [⟨3⟩, ⟨2⟩, ⟨6⟩] rfl ∧
      (LinearVector.lit [⟨0⟩, ⟨0⟩, ⟨6⟩] rfl : LinearVector 3 CInt)
        ≠ LinearVector.lit [⟨3⟩, ⟨2⟩, ⟨6⟩] rfl :=
  ⟨by decide,
    num_operator_div_integer true ⟨[⟨0⟩, ⟨0⟩, ⟨0⟩], rfl⟩ ⟨6⟩
      (LinearVector.lit [⟨2⟩, ⟨3⟩, ⟨1⟩] rfl) 0 (by decide) (by decide),
    by decide, by decide, by decide⟩

/-- C18: the copy constructor, `operator=`, the vector `+=` and `-=`, the four
compound scalar operators (whatever `num` is bound to) and every free operator
return normally for all inputs, in a build with or without `NDEBUG`: no
`out_of_range` is raised, no `assert` fires, no unchecked access leaves the
array. -/
theorem arithmetic_never_fails [Add T] [Sub T] [Mul T] [Div T] [IntCast T] (ndebug : Bool)
    (uninit : StdArray T length) (a b : LinearVector length T) (num : T)
    (ref : LinearVector.ScalarRef T length) :
    (∃ w, LinearVector.ctor_copy ndebug uninit a = .ok w) ∧
      (∃ w, a.operator_assign ndebug b = .ok w) ∧
      (∃ w, a.operator_add_assign_vec ndebug b = .ok w) ∧
      (∃ w, a.operator_sub_assign_vec ndebug b = .ok w) ∧
      (∃ w, a.operator_add_assign ref = .ok w) ∧
      (∃ w, a.operator_sub_assign ref = .ok w) ∧
      (∃ w, a.operator_mul_assign ref = .ok w) ∧
      (∃ w, a.operator_div_assign ref = .ok w) ∧
      (∃ w, LinearVector.operator_add ndebug uninit a b = .ok w) ∧
      (∃ w, LinearVector.operator_sub ndebug uninit a b = .ok w) ∧
      (∃ w, LinearVector.operator_add_num ndebug uninit a num = .ok w) ∧
      (∃ w, LinearVector.operator_sub_num ndebug uninit a num = .ok w) ∧
      (∃ w, LinearVector.operator_mul_num ndebug uninit a num = .ok w) ∧
      (∃ w, LinearVector.operator_div_num ndebug uninit a num = .ok w) ∧
      (∃ w, LinearVector.num_operator_add ndebug uninit num a = .ok w) ∧
      (∃ w, LinearVector.num_operator_sub ndebug uninit num a = .ok w) ∧
      (∃ w, LinearVector.num_operator_mul ndebug uninit num a = .ok w) ∧
      (∃ w, LinearVector.num_operator_div ndebug uninit num a = .ok w) :=
  ⟨⟨_, LinearVector.ctor_copy_eq ndebug uninit a⟩,
    ⟨_, LinearVector.operator_assign_eq ndebug a b⟩,
    ⟨_, LinearVector.operator_add_assign_vec_eq ndebug a b⟩,
    ⟨_, LinearVector.operator_sub_assign_vec_eq ndebug a b⟩,
    LinearVector.scalar_loop_ok _ a ref,
    LinearVector.scalar_loop_ok _ a ref,
    LinearVector.scalar_loop_ok _ a ref,
    LinearVector.scalar_loop_ok _ a ref,
    ⟨_, LinearVector.operator_add_eq ndebug uninit a b⟩,
    ⟨_, LinearVector.operator_sub_eq ndebug uninit a b⟩,
    ⟨_, LinearVector.operator_add_num_eq ndebug uninit a num⟩,
    ⟨_, LinearVector.operator_sub_num_eq ndebug uninit a num⟩,
    ⟨_, LinearVector.operator_mul_num_eq ndebug uninit a num⟩,
    ⟨_, LinearVector.operator_div_num_eq ndebug uninit a num⟩,
    ⟨_, LinearVector.operator_add_num_eq ndebug uninit a num⟩,
    ⟨_, LinearVector.num_operator_sub_eq ndebug uninit num a⟩,
    ⟨_, LinearVector.operator_mul_num_eq ndebug uninit a num⟩,
    ⟨_, LinearVector.num_operator_div_eq ndebug uninit num a⟩⟩

/-!
## The scalar bound to an element of the receiver
-/

theorem LinearVector.index_then_scalar_loop (op : T → T → T) (ndebug : Bool)
    (v : LinearVector length T) {k : Nat} (hk : k < length) :
    (v.operator_index ndebug k >>= fun r => LinearVector.scalar_loop op v (.element r))
      = .ok (v.pointwise (fun r x =>
          op x (if k < r.val then op (v.data_.load ⟨k, hk⟩) (v.data_.load ⟨k, hk⟩)
                else v.data_.load ⟨k, hk⟩))) := by
  rw [LinearVector.operator_index_eq, dif_pos hk]
  simp only [bind, Except.bind]
  exact LinearVector.scalar_loop_element op v ⟨k, hk⟩

/-- C19: the compound scalar operators read `num` again in every iteration.  In
`v op= v[k]` the elements up to index `k` are combined with the old `v[k]`, and
every element after index `k` is combined with the value the loop has already
written into `v[k]`, which is `(old v[k]) op (old v[k])`. -/
theorem scalar_compound_rereads_element [Add T] [Sub T] [Mul T] [Div T] (ndebug : Bool)
    (v : LinearVector length T) (k i : Nat) (hk : k < length) (hi : i < length) :
    (∃ w, (v.operator_index ndebug k >>= fun r => v.operator_add_assign (.element r)) = .ok w ∧
        w.read ndebug i = .ok (v.data_.load ⟨i, hi⟩ +
          (if k < i then v.data_.load ⟨k, hk⟩ + v.data_.load ⟨k, hk⟩
           else v.data_.load ⟨k, hk⟩))) ∧
      (∃ w, (v.operator_index ndebug k >>= fun r => v.operator_sub_assign (.element r)) = .ok w ∧
        w.read ndebug i = .ok (v.data_.load ⟨i, hi⟩ -
          (if k < i then v.data_.load ⟨k, hk⟩ - v.data_.load ⟨k, hk⟩
           else v.data_.load ⟨k, hk⟩))) ∧
      (∃ w, (v.operator_index ndebug k >>= fun r => v.operator_mul_assign (.element r)) = .ok w ∧
        w.read ndebug i = .ok (v.data_.load ⟨i, hi⟩ *
          (if k < i then v.data_.load ⟨k, hk⟩ * v.data_.load ⟨k, hk⟩
           else v.data_.load ⟨k, hk⟩))) ∧
      (∃ w, (v.operator_index ndebug k >>= fun r => v.operator_div_assign (.element r)) = .ok w ∧
        w.read ndebug i = .ok (v.data_.load ⟨i, hi⟩ /
          (if k < i then v.data_.load ⟨k, hk⟩ / v.data_.load ⟨k, hk⟩
           else v.data_.load ⟨k, hk⟩))) := by
  refine ⟨⟨_, LinearVector.index_then_scalar_loop _ ndebug v hk, ?_⟩,
    ⟨_, LinearVector.index_then_scalar_loop _ ndebug v hk, ?_⟩,
    ⟨_, LinearVector.index_then_scalar_loop _ ndebug v hk, ?_⟩,
    ⟨_, LinearVector.index_then_scalar_loop _ ndebug v hk, ?_⟩⟩ <;>
  rw [LinearVector.read_pointwise ndebug _ _ hi]

/-- C19 on `v = {2, 3, 4}`: `v *= v[0]` leaves `{4, 12, 16}` and not
`{4, 6, 8}`, `v += v[0]` leaves `{4, 7, 8}` and not `{4, 5, 6}`. -/
theorem scalar_compound_rereads_element_witness :
    (0 < 3 ∧ 1 < 3 ∧ 2 < 3) ∧
      ((LinearVector.lit [2, 3, 4] rfl : LinearVector 3 Int).operator_index true 0 >>=
          fun r => (LinearVector.lit [2, 3, 4] rfl : LinearVector 3 Int).operator_mul_assign
            (.element r)) = .ok (LinearVector.lit [4, 12, 16] rfl) ∧
      ((LinearVector.lit [2, 3, 4] rfl : LinearVector 3 Int).operator_index true 0 >>=
          fun r => (LinearVector.lit [2, 3, 4] rfl : LinearVector 3 Int).operator_add_assign
            (.element r)) = .ok (LinearVector.lit [4, 7, 8] rfl) ∧
      (LinearVector.lit [4, 12, 16] rfl : LinearVector 3 Int) ≠ LinearVector.lit [4, 6, 8] rfl ∧
      (LinearVector.lit [4, 7, 8] rfl : LinearVector 3 Int) ≠ LinearVector.lit [4, 5, 6] rfl ∧
      (∃ w, ((LinearVector.lit [2, 3, 4] rfl : LinearVector 3 Int).operator_index true 0 >>=
          fun r => (LinearVector.lit [2, 3, 4] rfl : LinearVector 3 Int).operator_mul_assign
            (.element r)) = .ok w ∧ w.read true 1 = .ok 12) ∧
      (∃ w, ((LinearVector.lit [2, 3, 4] rfl : LinearVector 3 Int).operator_index true 0 >>=
          fun r => (LinearVector.lit [2, 3, 4] rfl : LinearVector 3 Int).operator_add_assign
            (.element r)) = .ok w ∧ w.read true 2 = .ok 8) :=
  ⟨by decide, by decide, by decide, by decide, by decide,
    (scalar_compound_rereads_element true (LinearVector.lit [2, 3, 4] rfl : LinearVector 3 Int)
      0 1 (by decide) (by decide)).2.2.1,
    (scalar_compound_rereads_element true (LinearVector.lit [2, 3, 4] rfl : LinearVector 3 Int)
      0 2 (by decide) (by decide)).1⟩

end LinearVectorModel
